import Mathlib

/-!
Verification development for the LMGC90_GUI core (`src/core/models.py`,
`src/core/validators.py`, `src/core/generators.py`,
`src/controllers/project_controller.py`).

Shallow embedding conventions:
* Python `float` values that are only stored, compared or combined by
  field arithmetic are modelled as `ℚ`; the transcendental float
  operations `math.cos`, `math.sin` and the constant `math.pi` that only
  feed stored coordinates are modelled by an opaque parameter record
  `Trig`.
* The external `pylmgc90.pre` collaborator (material/model/avatar/law
  handle constructors, the granulometric sampling and deposit routines)
  is opaque.  The controller's handle dictionaries
  `_pylmgc_materials`/`_pylmgc_models`/`_pylmgc_laws` are modelled by
  their key sets (the code only ever queries membership); the handle
  list `_pylmgc_bodies` is kept index-aligned with `state.avatars` by
  every operation and is not modelled separately.  The deposit call is
  modelled by a `GranuloEnv` record giving the sampled radii and the
  flat coordinate buffer (or `none` for a failed deposit).
* Exceptions are modelled with `Except Err`; since Python mutates the
  controller in place, every operation returns the (possibly partially
  mutated) controller next to its `Except` outcome.
-/

namespace LMGC

/-- Error kinds: `ValidationError` raised by the validators, and plain
`ValueError` raised by the controller itself. -/
inductive Err where
  | validation (msg : String)
  | valueError (msg : String)
deriving DecidableEq, Repr

/-- `str(e)`: the message carried by the exception. -/
def Err.msg : Err → String
  | .validation m => m
  | .valueError m => m

/-- `MaterialType` enum of `models.py`. -/
inductive MaterialType where
  | RIGID | ELAS | ELAS_DILA | VISCO_ELAS | ELAS_PLAS | THERMO_ELAS | PORO_ELAS
deriving DecidableEq, Repr

/-- `AvatarType` enum of `models.py`. -/
inductive AvatarType where
  | RIGID_DISK | RIGID_JONC | RIGID_POLYGON | RIGID_OVOID | RIGID_DISCRETE
  | RIGID_CLUSTER | ROUGH_WALL | FINE_WALL | SMOOTH_WALL | GRANULO_WALL
  | EMPTY_AVATAR | RIGID_SPHERE | RIGID_PLAN | RIGID_CYLINDER
  | RIGID_POLYHEDRON | ROUGH_WALL_3D | GRANULO_ROUGH_WALL_3D
deriving DecidableEq, Repr

/-- The `.value` string of each `AvatarType` member. -/
def AvatarType.val : AvatarType → String
  | .RIGID_DISK => "rigidDisk"
  | .RIGID_JONC => "rigidJonc"
  | .RIGID_POLYGON => "rigidPolygon"
  | .RIGID_OVOID => "rigidOvoidPolygon"
  | .RIGID_DISCRETE => "rigidDiscreteDisk"
  | .RIGID_CLUSTER => "rigidCluster"
  | .ROUGH_WALL => "roughWall"
  | .FINE_WALL => "fineWall"
  | .SMOOTH_WALL => "smoothWall"
  | .GRANULO_WALL => "granuloRoughWall"
  | .EMPTY_AVATAR => "emptyAvatar"
  | .RIGID_SPHERE => "rigidSphere"
  | .RIGID_PLAN => "rigidPlan"
  | .RIGID_CYLINDER => "rigidCylinder"
  | .RIGID_POLYHEDRON => "rigidPolyhedron"
  | .ROUGH_WALL_3D => "roughWall3D"
  | .GRANULO_ROUGH_WALL_3D => "granuloRoughWall3D"

/-- `AvatarType(s)`: enum construction from the `.value` string;
`none` models the `ValueError` raised on an unknown string. -/
def AvatarType.fromString : String → Option AvatarType
  | "rigidDisk" => some .RIGID_DISK
  | "rigidJonc" => some .RIGID_JONC
  | "rigidPolygon" => some .RIGID_POLYGON
  | "rigidOvoidPolygon" => some .RIGID_OVOID
  | "rigidDiscreteDisk" => some .RIGID_DISCRETE
  | "rigidCluster" => some .RIGID_CLUSTER
  | "roughWall" => some .ROUGH_WALL
  | "fineWall" => some .FINE_WALL
  | "smoothWall" => some .SMOOTH_WALL
  | "granuloRoughWall" => some .GRANULO_WALL
  | "emptyAvatar" => some .EMPTY_AVATAR
  | "rigidSphere" => some .RIGID_SPHERE
  | "rigidPlan" => some .RIGID_PLAN
  | "rigidCylinder" => some .RIGID_CYLINDER
  | "rigidPolyhedron" => some .RIGID_POLYHEDRON
  | "roughWall3D" => some .ROUGH_WALL_3D
  | "granuloRoughWall3D" => some .GRANULO_ROUGH_WALL_3D
  | _ => none

/-- `ContactLawType` enum of `models.py`. -/
inductive ContactLawType where
  | IQS_CLB | IQS_CLB_G0 | COUPLED_DOF
deriving DecidableEq, Repr

/-- `AvatarOrigin` enum of `models.py`. -/
inductive AvatarOrigin where
  | MANUAL | LOOP | GRANULO
deriving DecidableEq, Repr

/-- The `.value` string of each `AvatarOrigin` member. -/
def AvatarOrigin.val : AvatarOrigin → String
  | .MANUAL => "manual"
  | .LOOP => "loop"
  | .GRANULO => "granulo"

/-- `Material` dataclass.  The free-form `properties` dict is an opaque
payload (never branched on by the core). -/
structure Material where
  name : String
  material_type : MaterialType
  density : ℚ
  properties : List (String × String) := []
deriving DecidableEq, Repr

/-- `Model` dataclass. -/
structure Model where
  name : String
  physics : String
  element : String
  dimension : Nat
  options : List (String × String) := []
deriving DecidableEq, Repr

/-- The `axis` dict of an `Avatar` (keys `axe1`, `axe2` and optionally
`axe3`); the source stores a plain dict, the validator only tests key
presence, which the record makes structural. -/
structure Axis where
  axe1 : ℚ
  axe2 : ℚ
  axe3 : Option ℚ := none
deriving DecidableEq, Repr

/-- `Avatar` dataclass.  The non-serialized `controller` back-reference
is not part of the data; where `to_dict` dereferences it for the project
dimension, the dimension is passed explicitly. -/
structure Avatar where
  avatar_type : AvatarType
  center : List ℚ
  material_name : String
  model_name : String
  color : String := "BLUEx"
  origin : AvatarOrigin := .MANUAL
  radius : Option ℚ := none
  axis : Option Axis := none
  vertices : Option (List (List ℚ)) := none
  nb_vertices : Option Nat := none
  generation_type : Option String := none
  is_hollow : Bool := false
  wall_params : Option (List (String × ℚ)) := none
  contactors : List (List (String × String)) := []
deriving DecidableEq, Repr

/-- `ContactLaw` dataclass. -/
structure ContactLaw where
  name : String
  law_type : ContactLawType
  friction : Option ℚ := none
  properties : List (String × ℚ) := []
deriving DecidableEq, Repr

/-- `VisibilityRule` dataclass. -/
structure VisibilityRule where
  candidate_body : String
  candidate_contactor : String
  candidate_color : String
  antagonist_body : String
  antagonist_contactor : String
  antagonist_color : String
  behavior_name : String
  alert : ℚ := 1/10
deriving DecidableEq, Repr

/-- `DOFOperation` dataclass.  `target_value` is `Any` in the source,
discriminated by `target_type` (`"avatar"` uses the index,
`"group"` uses the group name); both carriers are kept side by side. -/
structure DOFOperation where
  operation_type : String
  target_type : String
  target_index : Nat := 0
  target_group : String := ""
  parameters : List (String × ℚ) := []
deriving DecidableEq, Repr

/-- `Loop` dataclass (a loop generator config). -/
structure Loop where
  loop_type : String
  model_avatar_index : Nat
  count : Nat
  radius : ℚ := 0
  step : ℚ := 0
  offset_x : ℚ := 0
  offset_y : ℚ := 0
  spiral_factor : ℚ := 0
  invert_axis : Bool := false
  group_name : Option String := none
  generated_indices : List Nat := []
deriving DecidableEq, Repr

/-- `GranuloGeneration` dataclass (a granulometric generator config). -/
structure GranuloGeneration where
  nb_particles : Nat
  radius_min : ℚ
  radius_max : ℚ
  container_type : String
  container_params : List (String × ℚ) := []
  model_name : String
  material_name : String
  avatar_type : String
  color : String := "BLUEx"
  seed : Option Nat := none
  group_name : Option String := none
  generated_indices : List Nat := []
deriving DecidableEq, Repr

/-- `PostProCommand` dataclass; `target_type`/`target_value` as for
`DOFOperation`, both optional. -/
structure PostProCommand where
  name : String
  step : Nat
  target_type : Option String := none
  target_index : Nat := 0
  target_group : String := ""
deriving DecidableEq, Repr

/-- `ProjectState` dataclass.  `preferences` and `custom_templates`
carry only UI configuration that no claim touches and are omitted;
`load_warnings` is the attribute the replay engine sets dynamically. -/
structure ProjectState where
  name : String
  dimension : Nat := 2
  units : List (String × String) := []
  materials : List Material := []
  models : List Model := []
  avatars : List Avatar := []
  contact_laws : List ContactLaw := []
  visibility_rules : List VisibilityRule := []
  operations : List DOFOperation := []
  loops : List Loop := []
  granulo_generations : List GranuloGeneration := []
  postpro_commands : List PostProCommand := []
  avatar_groups : List (String × List Nat) := []
  dynamic_vars : List (String × String) := []
  load_warnings : List String := []
deriving DecidableEq, Repr

/-! ### Validators (`src/core/validators.py`) -/

/-- `MaterialValidator.validate`. -/
def MaterialValidator.validate (m : Material) : Bool × String :=
  if m.name = "" ∨ m.name.data.all Char.isWhitespace then
    (false, "Le nom du matériau ne peut pas être vide")
  else if 5 < m.name.length then
    (false, "Le nom du matériau doit faire maximum 5 caractères")
  else if m.density ≤ 0 then
    (false, "La densité doit être strictement positive")
  else (true, "")

/-- `MaterialValidator.validate_or_raise`. -/
def MaterialValidator.validate_or_raise (m : Material) : Except Err Unit :=
  match MaterialValidator.validate m with
  | (true, _) => .ok ()
  | (false, e) => .error (.validation e)

/-- `ModelValidator.VALID_ELEMENTS_2D`. -/
def ModelValidator.VALID_ELEMENTS_2D : List String :=
  ["Rxx2D", "T3xxx", "Q4xxx", "T6xxx", "Q8xxx", "Q9xxx", "BARxx"]

/-- `ModelValidator.VALID_ELEMENTS_3D`. -/
def ModelValidator.VALID_ELEMENTS_3D : List String :=
  ["Rxx3D", "H8xxx", "SHB8x", "H20xx", "SHB6x", "TE10x", "DKTxx", "BARxx"]

/-- `ModelValidator.validate`. -/
def ModelValidator.validate (m : Model) : Bool × String :=
  if m.name = "" ∨ m.name.data.all Char.isWhitespace then
    (false, "Le nom du modèle ne peut pas être vide")
  else if 5 < m.name.length then
    (false, "Le nom du modèle doit faire maximum 5 caractères")
  else if m.dimension ≠ 2 ∧ m.dimension ≠ 3 then
    (false, "La dimension doit être 2 ou 3")
  else if m.element ∉ (if m.dimension = 2 then ModelValidator.VALID_ELEMENTS_2D
                       else ModelValidator.VALID_ELEMENTS_3D) then
    (false, "Élément '" ++ m.element ++ "' invalide pour dimension " ++ toString m.dimension)
  else (true, "")

/-- `ModelValidator.validate_or_raise`. -/
def ModelValidator.validate_or_raise (m : Model) : Except Err Unit :=
  match ModelValidator.validate m with
  | (true, _) => .ok ()
  | (false, e) => .error (.validation e)

/-- `AvatarValidator.validate`.  `not avatar.nb_vertices` in the source
is also true for `0`, which the `< 3` test subsumes; likewise an empty
`vertices` list falls under the `< 3` test. -/
def AvatarValidator.validate (a : Avatar) (dimension : Nat) : Bool × String :=
  if a.center.length ≠ dimension then
    (false, "Le centre doit avoir " ++ toString dimension ++ " coordonnées (actuellement "
      ++ toString a.center.length ++ ")")
  else if a.material_name = "" ∨ a.model_name = "" then
    (false, "Matériau et modèle requis")
  else if [AvatarType.RIGID_DISK, AvatarType.RIGID_DISCRETE,
           AvatarType.RIGID_CLUSTER].contains a.avatar_type
          && (match a.radius with | none => true | some r => decide (r ≤ 0)) then
    (false, "Rayon positif requis pour " ++ a.avatar_type.val)
  else if a.avatar_type = AvatarType.RIGID_JONC ∧ a.axis = none then
    (false, "Axes axe1 et axe2 requis pour rigidJonc")
  else if a.avatar_type == AvatarType.RIGID_POLYGON
          && a.generation_type == some "regular"
          && (match a.nb_vertices with | none => true | some n => decide (n < 3)) then
    (false, "nb_vertices >= 3 requis pour polygone régulier")
  else if a.avatar_type == AvatarType.RIGID_POLYGON
          && a.generation_type != some "regular"
          && (match a.vertices with | none => true | some vs => decide (vs.length < 3)) then
    (false, "Au moins 3 vertices requis")
  else (true, "")

/-- `AvatarValidator.validate_or_raise`. -/
def AvatarValidator.validate_or_raise (a : Avatar) (dimension : Nat) : Except Err Unit :=
  match AvatarValidator.validate a dimension with
  | (true, _) => .ok ()
  | (false, e) => .error (.validation e)

/-- `ContactLawValidator.validate`. -/
def ContactLawValidator.validate (law : ContactLaw) : Bool × String :=
  if law.name = "" ∨ law.name.data.all Char.isWhitespace then
    (false, "Le nom de la loi ne peut pas être vide")
  else if law.law_type ∈ [ContactLawType.IQS_CLB, ContactLawType.IQS_CLB_G0]
          ∧ law.friction = none then
    (false, "Friction requise pour " ++
      (match law.law_type with
       | .IQS_CLB => "IQS_CLB" | .IQS_CLB_G0 => "IQS_CLB_g0" | .COUPLED_DOF => "COUPLED_DOF"))
  else if [ContactLawType.IQS_CLB, ContactLawType.IQS_CLB_G0].contains law.law_type
          && (match law.friction with | none => false | some f => decide (f < 0)) then
    (false, "Le coefficient de friction doit être positif")
  else (true, "")

/-- `ContactLawValidator.validate_or_raise`. -/
def ContactLawValidator.validate_or_raise (law : ContactLaw) : Except Err Unit :=
  match ContactLawValidator.validate law with
  | (true, _) => .ok ()
  | (false, e) => .error (.validation e)

/-! ### Position generators (`src/core/generators.py`) -/

/-- Opaque model of the float trigonometric collaborators used by the
circle and spiral patterns (`math.pi`, `math.cos`, `math.sin`). -/
structure Trig where
  pi : ℚ
  cos : ℚ → ℚ
  sin : ℚ → ℚ

/-- `int(math.ceil(math.sqrt(count)))`: the exact natural ceiling of
the square root (double sqrt is exact on this range). -/
def ceilSqrt (n : Nat) : Nat :=
  if Nat.sqrt n * Nat.sqrt n = n then Nat.sqrt n else Nat.sqrt n + 1

namespace LoopGenerator

/-- `LoopGenerator.generate_circle`. -/
def generate_circle (t : Trig) (count : Nat) (radius : ℚ)
    (offset_x offset_y : ℚ) : List (List ℚ) :=
  (List.range count).map fun i =>
    let angle : ℚ := 2 * t.pi * i / count
    [offset_x + radius * t.cos angle, offset_y + radius * t.sin angle]

/-- `LoopGenerator.generate_grid`. -/
def generate_grid (count : Nat) (step : ℚ)
    (offset_x offset_y : ℚ) : List (List ℚ) :=
  let side := ceilSqrt count
  (List.range count).map fun i =>
    [offset_x + (i % side : Nat) * step, offset_y + (i / side : Nat) * step]

/-- `LoopGenerator.generate_line`. -/
def generate_line (count : Nat) (step : ℚ) (offset_x offset_y : ℚ)
    (invert_axis : Bool) : List (List ℚ) :=
  (List.range count).map fun i =>
    if invert_axis then [offset_x, offset_y + i * step]
    else [offset_x + i * step, offset_y]

/-- `LoopGenerator.generate_spiral`. -/
def generate_spiral (t : Trig) (count : Nat) (radius spiral_factor : ℚ)
    (offset_x offset_y : ℚ) : List (List ℚ) :=
  (List.range count).map fun i =>
    let angle : ℚ := 2 * t.pi * i / (max 1 (count / 5) : Nat)
    let r := radius + i * spiral_factor
    [offset_x + r * t.cos angle, offset_y + r * t.sin angle]

/-- `LoopGenerator.generate_positions`. -/
def generate_positions (t : Trig) (loop : Loop) : Except Err (List (List ℚ)) :=
  if loop.loop_type = "Cercle" then
    .ok (generate_circle t loop.count loop.radius loop.offset_x loop.offset_y)
  else if loop.loop_type = "Grille" then
    .ok (generate_grid loop.count loop.step loop.offset_x loop.offset_y)
  else if loop.loop_type = "Ligne" then
    .ok (generate_line loop.count loop.step loop.offset_x loop.offset_y loop.invert_axis)
  else if loop.loop_type = "Spirale" then
    .ok (generate_spiral t loop.count loop.radius loop.spiral_factor
          loop.offset_x loop.offset_y)
  else
    .error (.valueError ("Type de boucle inconnu: " ++ loop.loop_type))

end LoopGenerator

/-- Result of the external sampling and deposit collaborators for one
`GranuloGenerator.generate` call: `radii` is what
`pre.granulo_Random(nb, rmin, rmax, seed)` returned, `deposit` the flat
coordinate buffer of the `pre.depositIn*2D` routine (`none` models the
`coor is None` failure path). -/
structure GranuloEnv where
  radii : List ℚ
  deposit : Option (List ℚ)

/-- `np.reshape(coor, (len(coor) // 2, 2))` on an even-length flat
buffer: split into consecutive 2-vectors. -/
def chunkPairs : List ℚ → List (List ℚ)
  | x :: y :: rest => [x, y] :: chunkPairs rest
  | _ => []

namespace GranuloGenerator

/-- `GranuloGenerator.generate`.  Radius sampling and deposition are the
opaque `env`; the odd-length reshape failure is the `ValueError` numpy
would raise. -/
def generate (env : GranuloEnv) (config : GranuloGeneration) :
    Except Err (Nat × List (List ℚ) × List ℚ) :=
  let radii := env.radii
  if config.container_type = "Box2D" ∨ config.container_type = "Disk2D"
     ∨ config.container_type = "Couette2D" ∨ config.container_type = "Drum2D" then
    match env.deposit with
    | none => .error (.valueError "Échec du dépôt. Réduisez le nombre de particules.")
    | some flat =>
      if flat.length % 2 = 0 then
        let nb_remaining := flat.length / 2
        .ok (nb_remaining, chunkPairs flat, radii.take nb_remaining)
      else .error (.valueError "cannot reshape array")
  else
    .error (.valueError ("Type de conteneur inconnu: " ++ config.container_type))

end GranuloGenerator

/-! ### Persisted records (`to_dict` methods of `src/core/models.py`)

Each record structure holds the key/value pairs the corresponding
`to_dict` produces; a key that the source adds only conditionally is an
`Option` field (`none` = key absent).  `wall_params` keys are spliced
into the top-level dict by the source; they are kept grouped here. -/

/-- Persisted form of a `Material` (`Material.to_dict`). -/
structure MaterialRecord where
  name : String
  type : String
  density : ℚ
  props : List (String × String)
deriving DecidableEq, Repr

/-- `Material.to_dict`. -/
def Material.toDict (m : Material) : MaterialRecord :=
  { name := m.name
    type := match m.material_type with
      | .RIGID => "RIGID" | .ELAS => "ELAS" | .ELAS_DILA => "ELAS_DILA"
      | .VISCO_ELAS => "VISCO_ELAS" | .ELAS_PLAS => "ELAS_PLAS"
      | .THERMO_ELAS => "THERMO_ELAS" | .PORO_ELAS => "PORO_ELAS"
    density := m.density
    props := m.properties }

/-- Persisted form of a `Model` (`Model.to_dict`); the options dict is
merged at top level by the source and kept grouped here. -/
structure ModelRecord where
  name : String
  physics : String
  element : String
  dimension : Nat
  options : List (String × String)
deriving DecidableEq, Repr

/-- `Model.to_dict`. -/
def Model.toDict (m : Model) : ModelRecord :=
  { name := m.name, physics := m.physics, element := m.element
    dimension := m.dimension, options := m.options }

/-- Persisted form of an `Avatar` (`Avatar.to_dict`); `origin` holds the
`__origin` key. -/
structure AvatarRecord where
  type : String
  center : List ℚ
  material : String
  model : String
  color : String
  origin : String
  r : Option ℚ
  axe1 : Option ℚ
  axe2 : Option ℚ
  axe3 : Option ℚ
  vertices : Option (List (List ℚ))
  nb_vertices : Option Nat
  gen_type : Option String
  is_Hollow : Bool
  wall_params : Option (List (String × ℚ))
  contactors : List (List (String × String))
deriving DecidableEq, Repr

/-- `Avatar.to_dict`.  `dim` stands for the
`self.controller.state.dimension` back-reference; a falsy value
(`None`, empty list/dict/string) means the key is not emitted. -/
def Avatar.toDict (dim : Nat) (a : Avatar) : AvatarRecord :=
  { type := a.avatar_type.val
    center := a.center
    material := a.material_name
    model := a.model_name
    color := a.color
    origin := a.origin.val
    r := a.radius
    axe1 := a.axis.map (·.axe1)
    axe2 := a.axis.map (·.axe2)
    axe3 := match a.axis with
      | some ax => if dim = 3 then ax.axe3 else none
      | none => none
    vertices := match a.vertices with
      | some vs => if vs = [] then none else some vs
      | none => none
    nb_vertices := a.nb_vertices
    gen_type := match a.generation_type with
      | some g => if g = "" then none else some g
      | none => none
    is_Hollow := a.is_hollow
    wall_params := match a.wall_params with
      | some w => if w = [] then none else some w
      | none => none
    contactors := a.contactors }

/-- Persisted form of a `ContactLaw` (`ContactLaw.to_dict`). -/
structure ContactLawRecord where
  name : String
  law : String
  fric : Option ℚ
  properties : List (String × ℚ)
deriving DecidableEq, Repr

/-- `ContactLaw.to_dict`. -/
def ContactLaw.toDict (c : ContactLaw) : ContactLawRecord :=
  { name := c.name
    law := match c.law_type with
      | .IQS_CLB => "IQS_CLB" | .IQS_CLB_G0 => "IQS_CLB_g0" | .COUPLED_DOF => "COUPLED_DOF"
    fric := c.friction
    properties := c.properties }

/-- Persisted form of a `VisibilityRule` (`VisibilityRule.to_dict`). -/
structure VisibilityRuleRecord where
  CorpsCandidat : String
  candidat : String
  colorCandidat : String
  CorpsAntagoniste : String
  antagoniste : String
  colorAntagoniste : String
  behav : String
  alert : ℚ
deriving DecidableEq, Repr

/-- `VisibilityRule.to_dict`. -/
def VisibilityRule.toDict (v : VisibilityRule) : VisibilityRuleRecord :=
  { CorpsCandidat := v.candidate_body, candidat := v.candidate_contactor
    colorCandidat := v.candidate_color, CorpsAntagoniste := v.antagonist_body
    antagoniste := v.antagonist_contactor, colorAntagoniste := v.antagonist_color
    behav := v.behavior_name, alert := v.alert }

/-- Persisted form of a `DOFOperation` (`DOFOperation.to_dict`). -/
structure DOFOperationRecord where
  type : String
  target : String
  target_index : Nat
  target_group : String
  params : List (String × ℚ)
deriving DecidableEq, Repr

/-- `DOFOperation.to_dict`. -/
def DOFOperation.toDict (o : DOFOperation) : DOFOperationRecord :=
  { type := o.operation_type, target := o.target_type
    target_index := o.target_index, target_group := o.target_group
    params := o.parameters }

/-- Persisted form of a `Loop` (`Loop.to_dict`). -/
structure LoopRecord where
  type : String
  model_avatar_index : Nat
  count : Nat
  radius : ℚ
  step : ℚ
  offset_x : ℚ
  offset_y : ℚ
  spiral_factor : ℚ
  invert_axis : Bool
  stored_in_group : Option String
  generated_avatar_indices : List Nat
deriving DecidableEq, Repr

/-- `Loop.to_dict`. -/
def Loop.toDict (l : Loop) : LoopRecord :=
  { type := l.loop_type, model_avatar_index := l.model_avatar_index
    count := l.count, radius := l.radius, step := l.step
    offset_x := l.offset_x, offset_y := l.offset_y
    spiral_factor := l.spiral_factor, invert_axis := l.invert_axis
    stored_in_group := l.group_name
    generated_avatar_indices := l.generated_indices }

/-- Persisted form of a `GranuloGeneration`
(`GranuloGeneration.to_dict`); the source stores `container_type` under
the `type` key inside the `container_params` dict. -/
structure GranuloRecord where
  nb : Nat
  rmin : ℚ
  rmax : ℚ
  container_type : String
  container_params : List (String × ℚ)
  model : String
  material : String
  avatar_type : String
  color : String
  seed : Option Nat
  stored_in_group : Option String
  avatar_indices : List Nat
deriving DecidableEq, Repr

/-- `GranuloGeneration.to_dict`. -/
def GranuloGeneration.toDict (g : GranuloGeneration) : GranuloRecord :=
  { nb := g.nb_particles, rmin := g.radius_min, rmax := g.radius_max
    container_type := g.container_type, container_params := g.container_params
    model := g.model_name, material := g.material_name
    avatar_type := g.avatar_type, color := g.color, seed := g.seed
    stored_in_group := g.group_name, avatar_indices := g.generated_indices }

/-- Persisted form of a `PostProCommand` (`PostProCommand.to_dict`);
`target_info` present iff `target_type` is truthy and `target_value` is
not `None`. -/
structure PostProRecord where
  name : String
  step : Nat
  target_info : Option (String × Nat × String)
deriving DecidableEq, Repr

/-- `PostProCommand.to_dict`. -/
def PostProCommand.toDict (p : PostProCommand) : PostProRecord :=
  { name := p.name, step := p.step
    target_info := match p.target_type with
      | some t => if t = "" then none else some (t, p.target_index, p.target_group)
      | none => none }

/-- The persisted snapshot (`ProjectState.to_dict`);
`preferences` is omitted with the state. -/
structure Snapshot where
  project_name : String
  dimension : Nat
  units : List (String × String)
  materials : List MaterialRecord
  models : List ModelRecord
  avatars : List AvatarRecord
  contact_laws : List ContactLawRecord
  visibility_rules : List VisibilityRuleRecord
  operations : List DOFOperationRecord
  loops : List LoopRecord
  granulo_generations : List GranuloRecord
  postpro_creations : List PostProRecord
  avatar_groups : List (String × List Nat)
  dynamic_vars : List (String × String)
deriving DecidableEq, Repr

/-- `ProjectState.to_dict`: only Manual avatars are serialized; every
other entity list is serialized in full. -/
def ProjectState.toDict (s : ProjectState) : Snapshot :=
  let manual_avatars := s.avatars.filter (fun a => a.origin = AvatarOrigin.MANUAL)
  { project_name := s.name
    dimension := s.dimension
    units := s.units
    materials := s.materials.map Material.toDict
    models := s.models.map Model.toDict
    avatars := manual_avatars.map (Avatar.toDict s.dimension)
    contact_laws := s.contact_laws.map ContactLaw.toDict
    visibility_rules := s.visibility_rules.map VisibilityRule.toDict
    operations := s.operations.map DOFOperation.toDict
    loops := s.loops.map Loop.toDict
    granulo_generations := s.granulo_generations.map GranuloGeneration.toDict
    postpro_creations := s.postpro_commands.map PostProCommand.toDict
    avatar_groups := s.avatar_groups
    dynamic_vars := s.dynamic_vars }

/-! ### Controller (`src/controllers/project_controller.py`)

Every operation returns its `Except` outcome next to the (possibly
partially mutated) controller, because Python mutates `self` in place
and a raised exception keeps the mutations made before the raise. -/

/-- `ProjectController`: the project state, the `_is_loading` flag, and
the key sets of the backend handle dictionaries.  The handle containers
themselves and the `_pylmgc_bodies` list (always index-aligned with
`state.avatars`) are opaque backend data. -/
structure Controller where
  state : ProjectState
  is_loading : Bool := false
  pylmgc_materials : List String := []
  pylmgc_models : List String := []
  pylmgc_laws : List String := []
deriving DecidableEq, Repr

/-- Python dict key insertion (`d[k] = v`): keys stay unique,
a fresh key goes to the end. -/
def insertKey (k : String) (ks : List String) : List String :=
  if ks.contains k then ks else ks ++ [k]

/-- Python dict key removal (`d.pop(k, None)`). -/
def removeKey (k : String) (ks : List String) : List String :=
  ks.filter (fun x => x ≠ k)

/-- `d[k] = v` for every name in order (rebuild loops). -/
def insertKeys (names : List String) (ks : List String) : List String :=
  names.foldl (fun acc n => insertKey n acc) ks

namespace ProjectController

/-- `ProjectController._find_material`. -/
def find_material (s : ProjectState) (name : String) : Option Material :=
  s.materials.find? (fun m => m.name = name)

/-- `ProjectController._find_model`. -/
def find_model (s : ProjectState) (name : String) : Option Model :=
  s.models.find? (fun m => m.name = name)

/-- `ProjectController._find_contact_law`. -/
def find_contact_law (s : ProjectState) (name : String) : Option ContactLaw :=
  s.contact_laws.find? (fun l => l.name = name)

/-- `ProjectController.add_material`. -/
def add_material (m : Material) (c : Controller) : Except Err Unit × Controller :=
  match MaterialValidator.validate_or_raise m with
  | .error e => (.error e, c)
  | .ok _ =>
    (.ok (), { c with
      pylmgc_materials := insertKey m.name c.pylmgc_materials
      state := { c.state with materials := c.state.materials ++ [m] } })

/-- `ProjectController.update_material`.  `materials.index(old_mat)` is
the first position whose element equals the first material named
`old_name`, which is that first position itself (earlier elements have a
different name). -/
def update_material (old_name : String) (m : Material) (c : Controller) :
    Except Err Unit × Controller :=
  match MaterialValidator.validate_or_raise m with
  | .error e => (.error e, c)
  | .ok _ =>
    match find_material c.state old_name with
    | none => (.error (.valueError ("Matériau '" ++ old_name ++ "' introuvable")), c)
    | some _ =>
      if old_name ≠ m.name ∧ (find_material c.state m.name).isSome then
        (.error (.valueError ("Un matériau nommé '" ++ m.name ++ "' existe déjà")), c)
      else
        let avatars' :=
          if old_name ≠ m.name then
            c.state.avatars.map (fun a =>
              if a.material_name = old_name then { a with material_name := m.name } else a)
          else c.state.avatars
        let idx := c.state.materials.findIdx (fun x => x.name = old_name)
        (.ok (), { c with
          pylmgc_materials := insertKey m.name (removeKey old_name c.pylmgc_materials)
          state := { c.state with
            avatars := avatars'
            materials := c.state.materials.set idx m } })

/-- `ProjectController.remove_material`: unconditional deletion, `False`
only when the name is unknown.  `materials.remove(material)` erases the
first element equal to the found material, i.e. the first element with
that name. -/
def remove_material (name : String) (c : Controller) : Except Err Bool × Controller :=
  match find_material c.state name with
  | none => (.ok false, c)
  | some mat =>
    (.ok true, { c with
      pylmgc_materials := removeKey name c.pylmgc_materials
      state := { c.state with materials := c.state.materials.erase mat } })

/-- `ProjectController.get_material`. -/
def get_material (name : String) (c : Controller) : Option Material :=
  find_material c.state name

/-- `ProjectController.is_material_used`. -/
def is_material_used (name : String) (c : Controller) : Bool × List String :=
  let refs := c.state.avatars.enum.filterMap (fun p =>
    if p.2.material_name = name then
      some ("Avatar #" ++ toString p.1 ++ " (" ++ p.2.avatar_type.val ++ ")")
    else none)
  (decide (0 < refs.length), refs)

/-- `ProjectController.add_model`. -/
def add_model (m : Model) (c : Controller) : Except Err Unit × Controller :=
  match ModelValidator.validate_or_raise m with
  | .error e => (.error e, c)
  | .ok _ =>
    (.ok (), { c with
      pylmgc_models := insertKey m.name c.pylmgc_models
      state := { c.state with models := c.state.models ++ [m] } })

/-- `ProjectController.update_model`. -/
def update_model (old_name : String) (m : Model) (c : Controller) :
    Except Err Unit × Controller :=
  match ModelValidator.validate_or_raise m with
  | .error e => (.error e, c)
  | .ok _ =>
    match find_model c.state old_name with
    | none => (.error (.valueError ("Modèle '" ++ old_name ++ "' introuvable")), c)
    | some _ =>
      if old_name ≠ m.name ∧ (find_model c.state m.name).isSome then
        (.error (.valueError ("Un modèle nommé '" ++ m.name ++ "' existe déjà")), c)
      else
        let avatars' :=
          if old_name ≠ m.name then
            c.state.avatars.map (fun a =>
              if a.model_name = old_name then { a with model_name := m.name } else a)
          else c.state.avatars
        let idx := c.state.models.findIdx (fun x => x.name = old_name)
        (.ok (), { c with
          pylmgc_models := insertKey m.name (removeKey old_name c.pylmgc_models)
          state := { c.state with
            avatars := avatars'
            models := c.state.models.set idx m } })

/-- `ProjectController.remove_model`. -/
def remove_model (name : String) (c : Controller) : Except Err Bool × Controller :=
  match find_model c.state name with
  | none => (.ok false, c)
  | some mod =>
    (.ok true, { c with
      pylmgc_models := removeKey name c.pylmgc_models
      state := { c.state with models := c.state.models.erase mod } })

/-- `ProjectController.get_model`. -/
def get_model (name : String) (c : Controller) : Option Model :=
  find_model c.state name

/-- `ProjectController.is_model_used`. -/
def is_model_used (name : String) (c : Controller) : Bool × List String :=
  let refs := c.state.avatars.enum.filterMap (fun p =>
    if p.2.model_name = name then
      some ("Avatar #" ++ toString p.1 ++ " (" ++ p.2.avatar_type.val ++ ")")
    else none)
  (decide (0 < refs.length), refs)

/-- `ProjectController.add_avatar`; returns the index of the new
avatar (`len(avatars) - 1` after the append). -/
def add_avatar (a : Avatar) (c : Controller) : Except Err Nat × Controller :=
  match AvatarValidator.validate_or_raise a c.state.dimension with
  | .error e => (.error e, c)
  | .ok _ =>
    if ¬ c.pylmgc_materials.contains a.material_name then
      (.error (.valueError ("Matériau '" ++ a.material_name ++ "' introuvable")), c)
    else if ¬ c.pylmgc_models.contains a.model_name then
      (.error (.valueError ("Modèle '" ++ a.model_name ++ "' introuvable")), c)
    else
      (.ok c.state.avatars.length, { c with
        state := { c.state with avatars := c.state.avatars ++ [a] } })

/-- `ProjectController.update_avatar`. -/
def update_avatar (index : Nat) (a : Avatar) (c : Controller) :
    Except Err Unit × Controller :=
  if index < c.state.avatars.length then
    match AvatarValidator.validate_or_raise a c.state.dimension with
    | .error e => (.error e, c)
    | .ok _ =>
      if ¬ c.pylmgc_materials.contains a.material_name then
        (.error (.valueError ("Matériau '" ++ a.material_name ++ "' introuvable")), c)
      else if ¬ c.pylmgc_models.contains a.model_name then
        (.error (.valueError ("Modèle '" ++ a.model_name ++ "' introuvable")), c)
      else
        (.ok (), { c with
          state := { c.state with avatars := c.state.avatars.set index a } })
  else (.error (.valueError ("Index " ++ toString index ++ " invalide")), c)

/-- `ProjectController.get_avatar`. -/
def get_avatar (index : Nat) (c : Controller) : Option Avatar :=
  c.state.avatars[index]?

/-- `ProjectController.remove_avatar`. -/
def remove_avatar (index : Nat) (c : Controller) : Bool × Controller :=
  if index < c.state.avatars.length then
    (true, { c with state := { c.state with avatars := c.state.avatars.eraseIdx index } })
  else (false, c)

/-- `ProjectController.add_contact_law`. -/
def add_contact_law (law : ContactLaw) (c : Controller) : Except Err Unit × Controller :=
  match ContactLawValidator.validate_or_raise law with
  | .error e => (.error e, c)
  | .ok _ =>
    (.ok (), { c with
      pylmgc_laws := insertKey law.name c.pylmgc_laws
      state := { c.state with contact_laws := c.state.contact_laws ++ [law] } })

/-- `ProjectController.update_contact_law`. -/
def update_contact_law (old_name : String) (law : ContactLaw) (c : Controller) :
    Except Err Unit × Controller :=
  match ContactLawValidator.validate_or_raise law with
  | .error e => (.error e, c)
  | .ok _ =>
    match find_contact_law c.state old_name with
    | none => (.error (.valueError ("Loi '" ++ old_name ++ "' introuvable")), c)
    | some _ =>
      if old_name ≠ law.name ∧ (find_contact_law c.state law.name).isSome then
        (.error (.valueError ("Une loi nommée '" ++ law.name ++ "' existe déjà")), c)
      else
        let rules' :=
          if old_name ≠ law.name then
            c.state.visibility_rules.map (fun r =>
              if r.behavior_name = old_name then { r with behavior_name := law.name } else r)
          else c.state.visibility_rules
        let idx := c.state.contact_laws.findIdx (fun x => x.name = old_name)
        (.ok (), { c with
          pylmgc_laws := insertKey law.name (removeKey old_name c.pylmgc_laws)
          state := { c.state with
            visibility_rules := rules'
            contact_laws := c.state.contact_laws.set idx law } })

/-- `ProjectController.remove_contact_law`. -/
def remove_contact_law (name : String) (c : Controller) : Except Err Bool × Controller :=
  match find_contact_law c.state name with
  | none => (.ok false, c)
  | some law =>
    (.ok true, { c with
      pylmgc_laws := removeKey name c.pylmgc_laws
      state := { c.state with contact_laws := c.state.contact_laws.erase law } })

/-- `ProjectController.get_contact_law`. -/
def get_contact_law (name : String) (c : Controller) : Option ContactLaw :=
  find_contact_law c.state name

/-- `ProjectController.is_contact_law_used`. -/
def is_contact_law_used (name : String) (c : Controller) : Bool × List String :=
  let refs := c.state.visibility_rules.enum.filterMap (fun p =>
    if p.2.behavior_name = name then
      some ("Règle de visibilité #" ++ toString (p.1 + 1))
    else none)
  (decide (0 < refs.length), refs)

/-- `ProjectController.add_visibility_rule`. -/
def add_visibility_rule (rule : VisibilityRule) (c : Controller) :
    Except Err Unit × Controller :=
  if ¬ c.pylmgc_laws.contains rule.behavior_name then
    (.error (.valueError ("Loi '" ++ rule.behavior_name ++ "' introuvable")), c)
  else
    (.ok (), { c with
      state := { c.state with
        visibility_rules := c.state.visibility_rules ++ [rule] } })

/-- `ProjectController.remove_visibility_rule`. -/
def remove_visibility_rule (index : Nat) (c : Controller) : Bool × Controller :=
  if index < c.state.visibility_rules.length then
    (true, { c with state := { c.state with
      visibility_rules := c.state.visibility_rules.eraseIdx index } })
  else (false, c)

/-- `ProjectController.apply_dof_operation`: drives the backend bodies
only (opaque handles); no tracked state is touched. -/
def apply_dof_operation (_op : DOFOperation) (c : Controller) : Controller := c

/-- `ProjectController.add_dof_operation` = apply, then append to the
persisted operation log. -/
def add_dof_operation (op : DOFOperation) (c : Controller) : Controller :=
  let c1 := apply_dof_operation op c
  { c1 with state := { c1.state with operations := c1.state.operations ++ [op] } }

/-- `dict.setdefault`-style group extension used by both generators:
create the group if absent, then extend it with the new indices. -/
def extendGroup (g : String) (idxs : List Nat) (groups : List (String × List Nat)) :
    List (String × List Nat) :=
  if groups.any (fun p => p.1 = g) then
    groups.map (fun p => if p.1 = g then (p.1, p.2 ++ idxs) else p)
  else groups ++ [(g, idxs)]

/-- The avatar-creation loop of `generate_loop`: one copy of the model
avatar per center (origin `LOOP`), each added through `add_avatar`; an
exception aborts the loop keeping the avatars already added. -/
def genLoopAvatars (model_avatar : Avatar) (centers : List (List ℚ)) (c : Controller) :
    Except Err (List Nat) × Controller :=
  match centers with
  | [] => (.ok [], c)
  | ctr :: rest =>
    let new_avatar := { model_avatar with center := ctr, origin := AvatarOrigin.LOOP }
    match add_avatar new_avatar c with
    | (.error e, c1) => (.error e, c1)
    | (.ok idx, c1) =>
      match genLoopAvatars model_avatar rest c1 with
      | (.error e, c2) => (.error e, c2)
      | (.ok idxs, c2) => (.ok (idx :: idxs), c2)

/-- `ProjectController.generate_loop`.  The source reassigns
`loop.generated_indices` in place; the updated config is returned next
to the indices so callers (the replay engine) can store it. -/
def generate_loop (t : Trig) (loop : Loop) (c : Controller) :
    Except Err (List Nat × Loop) × Controller :=
  if h : loop.model_avatar_index < c.state.avatars.length then
    let model_avatar := c.state.avatars.get ⟨loop.model_avatar_index, h⟩
    match LoopGenerator.generate_positions t loop with
    | .error e => (.error e, c)
    | .ok centers =>
      match genLoopAvatars model_avatar centers c with
      | (.error e, c1) => (.error e, c1)
      | (.ok idxs, c1) =>
        let loop' := { loop with generated_indices := idxs }
        let c2 :=
          if c1.is_loading then c1
          else { c1 with state := { c1.state with loops := c1.state.loops ++ [loop'] } }
        let c3 :=
          match loop.group_name with
          | some g =>
            { c2 with state := { c2.state with
                avatar_groups := extendGroup g idxs c2.state.avatar_groups } }
          | none => c2
        (.ok (idxs, loop'), c3)
  else (.error (.valueError "Index du modèle d'avatar invalide"), c)

/-- `sorted(xs, reverse=True)`: insertion into a descending list. -/
def insertDesc (x : Nat) : List Nat → List Nat
  | [] => [x]
  | y :: ys => if y ≤ x then x :: y :: ys else y :: insertDesc x ys

/-- `sorted(xs, reverse=True)`. -/
def sortDesc (l : List Nat) : List Nat :=
  l.foldr insertDesc []

/-- `ProjectController.remove_loop`: delete the generated avatars in
descending index order, then drop the loop config. -/
def remove_loop (index : Nat) (c : Controller) : Bool × Controller :=
  if h : index < c.state.loops.length then
    let loop := c.state.loops.get ⟨index, h⟩
    let c1 := (sortDesc loop.generated_indices).foldl
      (fun acc i => (remove_avatar i acc).2) c
    (true, { c1 with state := { c1.state with loops := c1.state.loops.eraseIdx index } })
  else (false, c)

/-- `ProjectController.get_loop`. -/
def get_loop (index : Nat) (c : Controller) : Option Loop :=
  c.state.loops[index]?

/-- The avatar-creation loop of `generate_granulo` over
`range(nb_particles)`: missing radius entries reproduce the `IndexError`
of `radii[i]`, an unknown `avatar_type` string the `ValueError` of
`AvatarType(...)`. -/
def genGranuloAvatars (config : GranuloGeneration) (coords : List (List ℚ))
    (radii : List ℚ) (is : List Nat) (c : Controller) :
    Except Err (List Nat) × Controller :=
  match is with
  | [] => (.ok [], c)
  | i :: rest =>
    match coords[i]?, radii[i]? with
    | some ctr, some r =>
      match AvatarType.fromString config.avatar_type with
      | none =>
        (.error (.valueError ("'" ++ config.avatar_type ++ "' is not a valid AvatarType")), c)
      | some ty =>
        let avatar : Avatar :=
          { avatar_type := ty, center := ctr
            material_name := config.material_name, model_name := config.model_name
            color := config.color, origin := AvatarOrigin.GRANULO, radius := some r }
        match add_avatar avatar c with
        | (.error e, c1) => (.error e, c1)
        | (.ok idx, c1) =>
          match genGranuloAvatars config coords radii rest c1 with
          | (.error e, c2) => (.error e, c2)
          | (.ok idxs, c2) => (.ok (idx :: idxs), c2)
    | _, _ => (.error (.valueError "index out of range"), c)

/-- `ProjectController.generate_granulo`; as for `generate_loop` the
updated config (reassigned `generated_indices`) is returned
explicitly. -/
def generate_granulo (env : GranuloEnv) (config : GranuloGeneration) (c : Controller) :
    Except Err (List Nat × GranuloGeneration) × Controller :=
  match GranuloGenerator.generate env config with
  | .error e => (.error e, c)
  | .ok (nb, coords, radii) =>
    match genGranuloAvatars config coords radii (List.range nb) c with
    | (.error e, c1) => (.error e, c1)
    | (.ok idxs, c1) =>
      let config' := { config with generated_indices := idxs }
      let c2 :=
        if c1.is_loading then c1
        else { c1 with state := { c1.state with
          granulo_generations := c1.state.granulo_generations ++ [config'] } }
      let c3 :=
        match config.group_name with
        | some g =>
          { c2 with state := { c2.state with
              avatar_groups := extendGroup g idxs c2.state.avatar_groups } }
        | none => c2
      (.ok (idxs, config'), c3)

/-- `ProjectController.remove_granulo`. -/
def remove_granulo (index : Nat) (c : Controller) : Bool × Controller :=
  if h : index < c.state.granulo_generations.length then
    let granulo := c.state.granulo_generations.get ⟨index, h⟩
    let c1 := (sortDesc granulo.generated_indices).foldl
      (fun acc i => (remove_avatar i acc).2) c
    (true, { c1 with state := { c1.state with
      granulo_generations := c1.state.granulo_generations.eraseIdx index } })
  else (false, c)

/-- `ProjectController.get_granulo`. -/
def get_granulo (index : Nat) (c : Controller) : Option GranuloGeneration :=
  c.state.granulo_generations[index]?

end ProjectController

/-- The manual-avatar pass of `_rebuild_pylmgc_objects`: for each Manual
avatar (in original order) check its material and model against the
rebuilt handle dictionaries; the first missing reference raises.  The
backend body construction itself is opaque. -/
def checkManualAvatars (avs : List Avatar) (pmat pmod : List String) : Except Err Unit :=
  match avs with
  | [] => .ok ()
  | a :: rest =>
    if ¬ pmat.contains a.material_name then
      .error (.valueError ("Matériau '" ++ a.material_name ++ "' introuvable lors de la reconstruction"))
    else if ¬ pmod.contains a.model_name then
      .error (.valueError ("Modèle '" ++ a.model_name ++ "' introuvable lors de la reconstruction"))
    else checkManualAvatars rest pmat pmod

/-- The visibility pass of `_rebuild_pylmgc_objects`: each rule's law
must exist among the rebuilt law handles; a missing law raises. -/
def checkVisibilityRules (rules : List VisibilityRule) (plaws : List String) :
    Except Err Unit :=
  match rules with
  | [] => .ok ()
  | r :: rest =>
    if ¬ plaws.contains r.behavior_name then
      .error (.valueError ("Loi '" ++ r.behavior_name ++ "' introuvable lors de la reconstruction"))
    else checkVisibilityRules rest plaws

/-- The loop-replay pass of `_rebuild_pylmgc_objects`
(`for i, loop in enumerate(self.state.loops)` with `i` 0-based): any
exception of the pre-check or of `generate_loop` becomes the warning
`"Boucle {i+1}: {message}"` and replay continues; a successful replay
updates the stored config in place (returned here as the rebuilt list).
The iteration is over the initial list, faithful because the engine only
runs while `_is_loading` is set, so `generate_loop` never appends. -/
def replayLoops (t : Trig) (ls : List Loop) (i : Nat) (c : Controller) :
    List String × List Loop × Controller :=
  match ls with
  | [] => ([], [], c)
  | loop :: rest =>
    if c.state.avatars.length ≤ loop.model_avatar_index then
      match replayLoops t rest (i + 1) c with
      | (warns, rest', c2) =>
        (("Boucle " ++ toString (i + 1) ++ ": " ++
            ("Index modèle " ++ toString loop.model_avatar_index ++ " invalide")) :: warns,
         loop :: rest', c2)
    else
      match ProjectController.generate_loop t loop c with
      | (.error e, c1) =>
        match replayLoops t rest (i + 1) c1 with
        | (warns, rest', c2) =>
          (("Boucle " ++ toString (i + 1) ++ ": " ++ e.msg) :: warns, loop :: rest', c2)
      | (.ok (_, loop'), c1) =>
        match replayLoops t rest (i + 1) c1 with
        | (warns, rest', c2) => (warns, loop' :: rest', c2)

/-- The granulo-replay pass of `_rebuild_pylmgc_objects`; `envs i` gives
the external sampling/deposit outcome for the `i`-th config. -/
def replayGranulos (envs : Nat → GranuloEnv) (gs : List GranuloGeneration)
    (i : Nat) (c : Controller) :
    List String × List GranuloGeneration × Controller :=
  match gs with
  | [] => ([], [], c)
  | g :: rest =>
    match ProjectController.generate_granulo (envs i) g c with
    | (.error e, c1) =>
      match replayGranulos envs rest (i + 1) c1 with
      | (warns, rest', c2) =>
        (("Granulo " ++ toString (i + 1) ++ ": " ++ e.msg) :: warns, g :: rest', c2)
    | (.ok (_, g'), c1) =>
      match replayGranulos envs rest (i + 1) c1 with
      | (warns, rest', c2) => (warns, g' :: rest', c2)

/-- The `_reset_containers` step restricted to tracked data: clear the
backend handle dictionaries. -/
def resetMirrors (c : Controller) : Controller :=
  { c with pylmgc_materials := [], pylmgc_models := [], pylmgc_laws := [] }

/-- The material/model passes of `_rebuild_pylmgc_objects`: re-create a
backend handle per stored material and model. -/
def rebuildMatMod (c : Controller) : Controller :=
  { c with
    pylmgc_materials := insertKeys (c.state.materials.map (fun m => m.name)) []
    pylmgc_models := insertKeys (c.state.models.map (fun m => m.name)) [] }

/-- Store the in-place-mutated loop configs back (aliasing in the
source). -/
def setLoops (ls : List Loop) (c : Controller) : Controller :=
  { c with state := { c.state with loops := ls } }

/-- Store the in-place-mutated granulo configs back. -/
def setGranulos (gs : List GranuloGeneration) (c : Controller) : Controller :=
  { c with state := { c.state with granulo_generations := gs } }

/-- `if regeneration_errors: self.state.load_warnings = regeneration_errors`
(when the list is empty the field keeps its value, which by structure eta
is the same controller). -/
def attachWarnings (warnings : List String) (c : Controller) : Controller :=
  { c with state := { c.state with
      load_warnings := if warnings.isEmpty then c.state.load_warnings else warnings } }

/-- The contact-law pass of `_rebuild_pylmgc_objects`. -/
def rebuildLaws (c : Controller) : Controller :=
  { c with pylmgc_laws := insertKeys (c.state.contact_laws.map (fun l => l.name)) [] }

/-- `ProjectController._rebuild_pylmgc_objects`: reset the backend
containers, rebuild materials and models, recheck Manual avatars,
replay loops then granulo configs (collecting warnings), attach the
warnings when non-empty, rebuild laws, recheck visibility rules, replay
the DOF log. -/
def rebuild (t : Trig) (envs : Nat → GranuloEnv) (c : Controller) :
    Except Err Unit × Controller :=
  let c1 := rebuildMatMod (resetMirrors c)
  match checkManualAvatars
      (c1.state.avatars.filter (fun a => a.origin = AvatarOrigin.MANUAL))
      c1.pylmgc_materials c1.pylmgc_models with
  | .error e => (.error e, c1)
  | .ok _ =>
    match replayLoops t c1.state.loops 0 c1 with
    | (lw, loops', c2) =>
      match replayGranulos envs (setLoops loops' c2).state.granulo_generations 0
          (setLoops loops' c2) with
      | (gw, grans', c3) =>
        let c5 := rebuildLaws (attachWarnings (lw ++ gw) (setGranulos grans' c3))
        match checkVisibilityRules c5.state.visibility_rules c5.pylmgc_laws with
        | .error e => (.error e, c5)
        | .ok _ =>
          (.ok (), c5.state.operations.foldl
            (fun acc op => ProjectController.apply_dof_operation op acc) c5)

/-- `ProjectController.load_project`: set `_is_loading`, install the
deserialized snapshot state, rebuild; the `finally` clears the flag even
when the rebuild raises. -/
def load_project (t : Trig) (envs : Nat → GranuloEnv) (c : Controller)
    (snapshot : ProjectState) : Except Err Unit × Controller :=
  let c1 := { c with is_loading := true, state := snapshot }
  let (r, c2) := rebuild t envs c1
  (r, { c2 with is_loading := false })

/-! ### Supporting lemmas -/

/-- `ceilSqrt n` is an upper square root: `n ≤ ceilSqrt n * ceilSqrt n`. -/
lemma ceilSqrt_sq_ge (n : Nat) : n ≤ ceilSqrt n * ceilSqrt n := by
  unfold ceilSqrt
  split
  · omega
  · exact Nat.le_of_lt (Nat.lt_succ_sqrt n)

/-- `ceilSqrt n` is the least upper square root. -/
lemma ceilSqrt_least (n k : Nat) (h : n ≤ k * k) : ceilSqrt n ≤ k := by
  have hk : Nat.sqrt n ≤ k := by
    have := Nat.sqrt_le_sqrt h
    simpa [Nat.sqrt_eq] using this
  unfold ceilSqrt
  split
  · exact hk
  · rename_i hne
    rcases Nat.lt_or_ge (Nat.sqrt n) k with hlt | hge
    · omega
    · exfalso
      have hkk : Nat.sqrt n = k := Nat.le_antisymm hk hge
      subst hkk
      exact hne (Nat.le_antisymm (Nat.sqrt_le n) h)

/-- `Nat.sqrt 9 = 3` (the kernel cannot unfold `Nat.sqrt`). -/
lemma sqrt_nine : Nat.sqrt 9 = 3 := by
  rw [show (9 : Nat) = 3 * 3 from rfl]
  exact Nat.sqrt_eq 3

/-- `ceilSqrt 9 = 3`. -/
lemma ceilSqrt_nine : ceilSqrt 9 = 3 := by
  unfold ceilSqrt
  rw [sqrt_nine]
  norm_num

/-- C9: `generate_grid(count=9, step=1, offset=(0,0))` is the exact nine-point
grid, `side = ceil(sqrt(count))` (characterized as the least `k` with
`count ≤ k·k`), and point `i` is
`(offset_x + (i mod side)·step, offset_y + (i div side)·step)`. -/
theorem grid_generator_exact :
    LoopGenerator.generate_grid 9 1 0 0 =
      [[0,0],[1,0],[2,0],[0,1],[1,1],[2,1],[0,2],[1,2],[2,2]]
    ∧ (∀ count : Nat, count ≤ ceilSqrt count * ceilSqrt count
        ∧ ∀ k : Nat, count ≤ k * k → ceilSqrt count ≤ k)
    ∧ (∀ (count : Nat) (step offset_x offset_y : ℚ) (i : Nat), i < count →
        (LoopGenerator.generate_grid count step offset_x offset_y)[i]? =
          some [offset_x + (i % ceilSqrt count : Nat) * step,
                offset_y + (i / ceilSqrt count : Nat) * step]) := by
  refine ⟨?_, fun count => ⟨ceilSqrt_sq_ge count, fun k hk => ceilSqrt_least count k hk⟩, ?_⟩
  · simp [LoopGenerator.generate_grid, ceilSqrt_nine, List.range_succ]
  · intro count step ox oy i hi
    simp [LoopGenerator.generate_grid, List.getElem?_map, List.getElem?_range, hi]

/-- Witness for `grid_generator_exact` at `count = 9`, `i = 4`. -/
theorem grid_generator_exact_witness :
    (4 : Nat) < 9 ∧
    (LoopGenerator.generate_grid 9 1 0 0)[4]? =
      some [(0 : ℚ) + ((4 % ceilSqrt 9 : Nat) : ℚ) * 1,
            (0 : ℚ) + ((4 / ceilSqrt 9 : Nat) : ℚ) * 1] :=
  ⟨by norm_num, grid_generator_exact.2.2 9 1 0 0 4 (by norm_num)⟩

/-- Each chunk produced by the reshape has exactly two coordinates. -/
lemma chunkPairs_mem_length : ∀ (l : List ℚ), ∀ p ∈ chunkPairs l, p.length = 2
  | [], _, h => by simp [chunkPairs] at h
  | [_], _, h => by simp [chunkPairs] at h
  | x :: y :: rest, p, h => by
    simp only [chunkPairs, List.mem_cons] at h
    rcases h with h | h
    · simp [h]
    · exact chunkPairs_mem_length rest p h

/-- The reshape produces `len(flat) / 2` rows. -/
lemma chunkPairs_length : ∀ l : List ℚ, (chunkPairs l).length = l.length / 2
  | [] => rfl
  | [_] => by simp [chunkPairs]
  | x :: y :: rest => by
    simp only [chunkPairs, List.length_cons, chunkPairs_length rest]
    omega

/-- C8: for a known container, a deposit returning no positions fails with the
"deposition failed" error; otherwise the generator takes the actual seated
count `k = len(flat)/2`, reshapes the flat buffer into `k` 2-vectors and
truncates the radius list to `k`, so count, coordinate rows and radii agree. -/
theorem granulo_actual_count (env : GranuloEnv) (config : GranuloGeneration)
    (hct : config.container_type = "Box2D" ∨ config.container_type = "Disk2D"
         ∨ config.container_type = "Couette2D" ∨ config.container_type = "Drum2D") :
    (env.deposit = none →
      GranuloGenerator.generate env config =
        .error (.valueError "Échec du dépôt. Réduisez le nombre de particules."))
    ∧ (∀ (flat : List ℚ) (k : Nat), env.deposit = some flat → flat.length = 2 * k →
        GranuloGenerator.generate env config =
          .ok (k, chunkPairs flat, env.radii.take k)
        ∧ (chunkPairs flat).length = k
        ∧ (∀ p ∈ chunkPairs flat, p.length = 2)
        ∧ (k ≤ env.radii.length → (env.radii.take k).length = k)) := by
  constructor
  · intro hdep
    unfold GranuloGenerator.generate
    rw [if_pos hct, hdep]
  · intro flat k hdep hlen
    have hmod : flat.length % 2 = 0 := by omega
    have hdiv : flat.length / 2 = k := by omega
    refine ⟨?_, ?_, chunkPairs_mem_length flat, ?_⟩
    · unfold GranuloGenerator.generate
      rw [if_pos hct, hdep]
      simp [hmod, hdiv]
    · rw [chunkPairs_length, hdiv]
    · intro hk
      simp [List.length_take, hk]

/-- Concrete instance. -/
def granuloEnvW : GranuloEnv := ⟨[1, 2, 3], some [0, 0, 1, 1]⟩

/-- Concrete instance. -/
def granuloConfigW : GranuloGeneration :=
  { nb_particles := 3, radius_min := 1, radius_max := 3, container_type := "Box2D"
    model_name := "mod1", material_name := "M1", avatar_type := "rigidDisk" }

/-- Witness for `granulo_actual_count`: four flat coordinates and three
sampled radii give two particles, two rows, two radii. -/
theorem granulo_actual_count_witness :
    GranuloGenerator.generate granuloEnvW granuloConfigW =
      .ok (2, chunkPairs [0, 0, 1, 1], granuloEnvW.radii.take 2)
    ∧ (granuloEnvW.radii.take 2).length = 2 :=
  have h := (granulo_actual_count granuloEnvW granuloConfigW (Or.inl rfl)).2
    [0, 0, 1, 1] 2 rfl (by norm_num)
  ⟨h.1, h.2.2.2 (by norm_num [granuloEnvW])⟩

/-- The persisted origin tag identifies Manual avatars. -/
lemma AvatarOrigin.val_eq_manual_iff (o : AvatarOrigin) :
    o.val = "manual" ↔ o = .MANUAL := by
  cases o <;> simp [AvatarOrigin.val]

/-- C3: the persisted snapshot serializes exactly the Manual avatars (every
Loop- or Granulo-produced avatar is excluded, visible on the persisted origin
tag), while every Loop and GranuloGeneration config is serialized, each
carrying its `generated_indices`. -/
theorem snapshot_manual_avatars_and_all_configs (s : ProjectState) :
    s.toDict.avatars =
      (s.avatars.filter (fun a => a.origin = AvatarOrigin.MANUAL)).map
        (Avatar.toDict s.dimension)
    ∧ (∀ r ∈ s.toDict.avatars, r.origin = "manual")
    ∧ (∀ a ∈ s.avatars, a.origin ≠ AvatarOrigin.MANUAL →
        Avatar.toDict s.dimension a ∉ s.toDict.avatars)
    ∧ s.toDict.loops = s.loops.map Loop.toDict
    ∧ (∀ l ∈ s.loops, l.toDict ∈ s.toDict.loops ∧
        l.toDict.generated_avatar_indices = l.generated_indices)
    ∧ s.toDict.granulo_generations =
        s.granulo_generations.map GranuloGeneration.toDict
    ∧ (∀ g ∈ s.granulo_generations, g.toDict ∈ s.toDict.granulo_generations ∧
        g.toDict.avatar_indices = g.generated_indices) := by
  have hmem : ∀ r ∈ s.toDict.avatars, r.origin = "manual" := by
    intro r hr
    simp only [ProjectState.toDict, List.mem_map, List.mem_filter,
      decide_eq_true_eq] at hr
    obtain ⟨a, ⟨_, ho⟩, rfl⟩ := hr
    simp [Avatar.toDict, ho, AvatarOrigin.val]
  refine ⟨rfl, hmem, ?_, rfl, ?_, rfl, ?_⟩
  · intro a _ hno hin
    have h1 := hmem _ hin
    have h2 : (Avatar.toDict s.dimension a).origin = a.origin.val := rfl
    rw [h2, AvatarOrigin.val_eq_manual_iff] at h1
    exact hno h1
  · intro l hl
    exact ⟨List.mem_map_of_mem Loop.toDict hl, rfl⟩
  · intro g hg
    exact ⟨List.mem_map_of_mem GranuloGeneration.toDict hg, rfl⟩

/-- Concrete instance: one Manual and one Loop-produced avatar. -/
def avatarManualW : Avatar :=
  { avatar_type := .RIGID_DISK, center := [0, 0], material_name := "M1"
    model_name := "mod1", origin := .MANUAL, radius := some 1 }

/-- Concrete instance. -/
def avatarLoopW : Avatar :=
  { avatarManualW with center := [1, 0], origin := .LOOP }

/-- Concrete instance. -/
def stateW3 : ProjectState :=
  { name := "P", avatars := [avatarManualW, avatarLoopW] }

/-- Witness for `snapshot_manual_avatars_and_all_configs`: the Loop-produced
avatar of `stateW3` is excluded from the snapshot. -/
theorem snapshot_manual_avatars_and_all_configs_witness :
    Avatar.toDict stateW3.dimension avatarLoopW ∉ stateW3.toDict.avatars :=
  (snapshot_manual_avatars_and_all_configs stateW3).2.2.1 avatarLoopW
    (by simp [stateW3]) (by simp [avatarLoopW, avatarManualW])

/-- C7: every add/update operation validates before mutating, so a call that
fails with a `ValidationError` returns the controller (entity store and
backend mirror) exactly as it was. -/
theorem validation_failure_no_mutation (c : Controller) :
    (∀ (m : Material) (msg : String) (c' : Controller),
        ProjectController.add_material m c = (.error (.validation msg), c') → c' = c)
  ∧ (∀ (old : String) (m : Material) (msg : String) (c' : Controller),
        ProjectController.update_material old m c = (.error (.validation msg), c') → c' = c)
  ∧ (∀ (m : Model) (msg : String) (c' : Controller),
        ProjectController.add_model m c = (.error (.validation msg), c') → c' = c)
  ∧ (∀ (old : String) (m : Model) (msg : String) (c' : Controller),
        ProjectController.update_model old m c = (.error (.validation msg), c') → c' = c)
  ∧ (∀ (a : Avatar) (msg : String) (c' : Controller),
        ProjectController.add_avatar a c = (.error (.validation msg), c') → c' = c)
  ∧ (∀ (index : Nat) (a : Avatar) (msg : String) (c' : Controller),
        ProjectController.update_avatar index a c = (.error (.validation msg), c') → c' = c)
  ∧ (∀ (law : ContactLaw) (msg : String) (c' : Controller),
        ProjectController.add_contact_law law c = (.error (.validation msg), c') → c' = c)
  ∧ (∀ (old : String) (law : ContactLaw) (msg : String) (c' : Controller),
        ProjectController.update_contact_law old law c = (.error (.validation msg), c') → c' = c) := by
  refine ⟨?_, ?_, ?_, ?_, ?_, ?_, ?_, ?_⟩
  case refine_2 =>
    intro old m msg c' h
    unfold ProjectController.update_material at h
    iterate 6 (all_goals try split at h)
    all_goals simp_all
  case refine_4 =>
    intro old m msg c' h
    unfold ProjectController.update_model at h
    iterate 6 (all_goals try split at h)
    all_goals simp_all
  case refine_6 =>
    intro i a msg c' h
    simp only [ProjectController.update_avatar] at h
    iterate 6 (all_goals try split at h)
    all_goals simp_all
  case refine_8 =>
    intro old law msg c' h
    unfold ProjectController.update_contact_law at h
    iterate 6 (all_goals try split at h)
    all_goals simp_all
  all_goals
    intro a b d h
    try unfold ProjectController.add_material at h
    try unfold ProjectController.add_model at h
    try unfold ProjectController.add_avatar at h
    try unfold ProjectController.add_contact_law at h
    iterate 6 (all_goals try split at h)
    all_goals simp_all

/-- Concrete instance: controller with one valid material. -/
def ctrlW7 : Controller :=
  { state := { name := "P", materials := [⟨"M1", .RIGID, 2500, []⟩] }
    pylmgc_materials := ["M1"] }

/-- Witness for `validation_failure_no_mutation`: adding a material with an
over-long name fails with a `ValidationError` and leaves the controller
untouched. -/
theorem validation_failure_no_mutation_witness :
    ProjectController.add_material ⟨"TOOLONG", .RIGID, 1, []⟩ ctrlW7 =
      (.error (.validation "Le nom du matériau doit faire maximum 5 caractères"), ctrlW7)
    ∧ (ProjectController.add_material ⟨"TOOLONG", .RIGID, 1, []⟩ ctrlW7).2 = ctrlW7 := by
  have heq : ProjectController.add_material ⟨"TOOLONG", .RIGID, 1, []⟩ ctrlW7 =
      (.error (.validation "Le nom du matériau doit faire maximum 5 caractères"), ctrlW7) := by
    rfl
  exact ⟨heq, (validation_failure_no_mutation ctrlW7).1 _ _ _ heq ▸ rfl⟩

/-- Counting the references produced by an `is_*_used` enumeration: the
filterMap over the enumerated list keeps exactly the elements satisfying
the predicate. -/
lemma length_filterMap_enumFrom {α β : Type _} (p : α → Prop) [DecidablePred p]
    (g : Nat → α → β) :
    ∀ (l : List α) (k : Nat),
      ((l.enumFrom k).filterMap (fun q => if p q.2 then some (g q.1 q.2) else none)).length
        = (l.filter (fun a => decide (p a))).length
  | [], _ => rfl
  | a :: l, k => by
    by_cases h : p a <;>
      simp [List.enumFrom, h, length_filterMap_enumFrom p g l (k + 1)]

/-- Concrete instance: a material referenced by one avatar. -/
def ctrlW1 : Controller :=
  { state :=
      { name := "P"
        materials := [⟨"M1", .RIGID, 2500, []⟩]
        avatars := [{ avatar_type := .RIGID_DISK, center := [0, 0]
                      material_name := "M1", model_name := "mod1", radius := some 1 }] }
    pylmgc_materials := ["M1"]
    pylmgc_models := ["mod1"] }

/-- C1 counterexample: `"M1"` is referenced by avatar 0, yet
`remove_material` does not refuse — it returns `True` and deletes the
material, changing the store. -/
theorem remove_material_referenced_not_refused :
    (ProjectController.is_material_used "M1" ctrlW1).1 = true
    ∧ (ProjectController.remove_material "M1" ctrlW1).1 = .ok true
    ∧ (ProjectController.remove_material "M1" ctrlW1).2.state.materials = []
    ∧ ctrlW1.state.materials ≠ [] := by
  refine ⟨?_, rfl, rfl, by simp [ctrlW1]⟩
  rfl

/-- C1 amended: the remove operations delete unconditionally (returning
`False` only for an unknown name); the reference information the caller
must consult lives in the separate `is_*_used` queries, whose boolean is
true exactly when a referencer exists and whose list has one entry per
referencer — so once every referencer is removed the query reports
unused, and the delete (which always proceeds) succeeds. -/
theorem remove_unconditional_and_used_queries (c : Controller) :
    (∀ (name : String) (mat : Material),
        ProjectController.find_material c.state name = some mat →
        ProjectController.remove_material name c =
          (.ok true, { c with
            pylmgc_materials := removeKey name c.pylmgc_materials
            state := { c.state with materials := c.state.materials.erase mat } }))
    ∧ (∀ name : String, (ProjectController.is_material_used name c).1 = true ↔
        ∃ a ∈ c.state.avatars, a.material_name = name)
    ∧ (∀ name : String, (ProjectController.is_material_used name c).2.length =
        (c.state.avatars.filter (fun a => a.material_name = name)).length)
    ∧ (∀ (name : String) (mod : Model),
        ProjectController.find_model c.state name = some mod →
        ProjectController.remove_model name c =
          (.ok true, { c with
            pylmgc_models := removeKey name c.pylmgc_models
            state := { c.state with models := c.state.models.erase mod } }))
    ∧ (∀ name : String, (ProjectController.is_model_used name c).1 = true ↔
        ∃ a ∈ c.state.avatars, a.model_name = name)
    ∧ (∀ (name : String) (law : ContactLaw),
        ProjectController.find_contact_law c.state name = some law →
        ProjectController.remove_contact_law name c =
          (.ok true, { c with
            pylmgc_laws := removeKey name c.pylmgc_laws
            state := { c.state with contact_laws := c.state.contact_laws.erase law } }))
    ∧ (∀ name : String, (ProjectController.is_contact_law_used name c).1 = true ↔
        ∃ r ∈ c.state.visibility_rules, r.behavior_name = name) := by
  have husedm : ∀ name : String, (ProjectController.is_material_used name c).2.length =
      (c.state.avatars.filter (fun a => a.material_name = name)).length := by
    intro name
    simp only [ProjectController.is_material_used, List.enum]
    exact length_filterMap_enumFrom (fun a : Avatar => a.material_name = name)
      (fun i a => "Avatar #" ++ toString i ++ " (" ++ a.avatar_type.val ++ ")")
      c.state.avatars 0
  refine ⟨?_, ?_, husedm, ?_, ?_, ?_, ?_⟩
  · intro name mat hfind
    simp [ProjectController.remove_material, hfind]
  · intro name
    simp only [ProjectController.is_material_used, decide_eq_true_eq]
    rw [show ((c.state.avatars.enum.filterMap fun p =>
        if p.2.material_name = name then
          some ("Avatar #" ++ toString p.1 ++ " (" ++ p.2.avatar_type.val ++ ")")
        else none).length) = (c.state.avatars.filter
          (fun a => a.material_name = name)).length from husedm name]
    rw [List.length_pos]
    constructor
    · intro h
      rcases List.exists_mem_of_ne_nil _ h with ⟨a, ha⟩
      rw [List.mem_filter] at ha
      exact ⟨a, ha.1, by simpa using ha.2⟩
    · rintro ⟨a, ha, hname⟩
      intro hnil
      have := List.filter_eq_nil_iff.mp hnil a ha
      simp [hname] at this
  · intro name mod hfind
    simp [ProjectController.remove_model, hfind]
  · intro name
    simp only [ProjectController.is_model_used, decide_eq_true_eq, List.enum]
    rw [length_filterMap_enumFrom (fun a : Avatar => a.model_name = name)
      (fun i a => "Avatar #" ++ toString i ++ " (" ++ a.avatar_type.val ++ ")")
      c.state.avatars 0]
    rw [List.length_pos]
    constructor
    · intro h
      rcases List.exists_mem_of_ne_nil _ h with ⟨a, ha⟩
      rw [List.mem_filter] at ha
      exact ⟨a, ha.1, by simpa using ha.2⟩
    · rintro ⟨a, ha, hname⟩
      intro hnil
      have := List.filter_eq_nil_iff.mp hnil a ha
      simp [hname] at this
  · intro name law hfind
    simp [ProjectController.remove_contact_law, hfind]
  · intro name
    simp only [ProjectController.is_contact_law_used, decide_eq_true_eq, List.enum]
    rw [length_filterMap_enumFrom (fun r : VisibilityRule => r.behavior_name = name)
      (fun i _ => "Règle de visibilité #" ++ toString (i + 1))
      c.state.visibility_rules 0]
    rw [List.length_pos]
    constructor
    · intro h
      rcases List.exists_mem_of_ne_nil _ h with ⟨r, hr⟩
      rw [List.mem_filter] at hr
      exact ⟨r, hr.1, by simpa using hr.2⟩
    · rintro ⟨r, hr, hname⟩
      intro hnil
      have := List.filter_eq_nil_iff.mp hnil r hr
      simp [hname] at this

/-- Witness for `remove_unconditional_and_used_queries` on `ctrlW1`. -/
theorem remove_unconditional_and_used_queries_witness :
    ProjectController.remove_material "M1" ctrlW1 =
      (.ok true, { ctrlW1 with
        pylmgc_materials := removeKey "M1" ctrlW1.pylmgc_materials
        state := { ctrlW1.state with
          materials := ctrlW1.state.materials.erase ⟨"M1", .RIGID, 2500, []⟩ } }) :=
  (remove_unconditional_and_used_queries ctrlW1).1 "M1" ⟨"M1", .RIGID, 2500, []⟩ rfl

/-- After replacing the unique element named `old` by an element with a
different name, no element is named `old` any more. -/
lemma find?_set_rename_none {α : Type _} (nameOf : α → String) (m : α) (l : List α)
    (old : String) (x : α)
    (hfind : l.find? (fun e => nameOf e = old) = some x)
    (hnodup : (l.map nameOf).Nodup)
    (hne : nameOf m ≠ old) :
    (l.set (l.findIdx (fun e => nameOf e = old)) m).find?
      (fun e => nameOf e = old) = none := by
  have hpx := List.find?_some hfind
  have hmem := List.mem_of_find?_eq_some hfind
  have hidxlt : l.findIdx (fun e => decide (nameOf e = old)) < l.length :=
    List.findIdx_lt_length_of_exists ⟨x, hmem, hpx⟩
  rw [List.find?_eq_none]
  intro y hy
  rw [List.mem_iff_getElem] at hy
  obtain ⟨j, hj, rfl⟩ := hy
  have hjlt : j < l.length := by simpa using hj
  by_cases hji : l.findIdx (fun e => decide (nameOf e = old)) = j
  · subst hji
    rw [List.getElem_set_self]
    simpa using hne
  · rw [List.getElem_set_ne hji]
    simp only [decide_eq_true_eq]
    intro hcontra
    have hidx2 : l.findIdx (fun e => decide (nameOf e = old)) < (l.map nameOf).length := by
      simpa using hidxlt
    have hj2 : j < (l.map nameOf).length := by simpa using hjlt
    have hidxname :
        nameOf (l[l.findIdx (fun e => decide (nameOf e = old))]) = old := by
      have hw := @List.findIdx_getElem _ (fun e => decide (nameOf e = old)) l hidxlt
      simpa using hw
    have hmapeq :
        (l.map nameOf)[l.findIdx (fun e => decide (nameOf e = old))] =
          (l.map nameOf)[j] := by
      rw [List.getElem_map, List.getElem_map, hidxname, hcontra]
    exact hji (hnodup.getElem_inj_iff.mp hmapeq)

/-- Inserting `m` at a valid position of a list in which no element
satisfies `p` makes `m` the first (and only) `p`-match. -/
lemma find?_set_fresh {α : Type _} (p : α → Bool) (m : α) (hm : p m = true) :
    ∀ (l : List α) (idx : Nat), idx < l.length → (∀ y ∈ l, ¬ p y = true) →
      (l.set idx m).find? p = some m
  | [], idx, h, _ => absurd h (by simp)
  | a :: l, 0, _, _ => by simp [List.set, List.find?, hm]
  | a :: l, idx + 1, h, hall => by
    have hpa : p a = false := by
      have := hall a (List.mem_cons_self a l)
      simpa using this
    simp only [List.set, List.find?, hpa]
    exact find?_set_fresh p m hm l idx (by simpa using h)
      (fun y hy => hall y (List.mem_cons_of_mem a hy))

/-- C6: renaming a Material (valid new value, fresh different name, names
unique) replaces the stored material and rewrites the material reference of
every avatar that used the old name; afterwards the old name resolves to
nothing and the new name to the new material.  The same cascade holds for
Model (avatar model references) and ContactLaw (visibility-rule behavior
references). -/
theorem rename_cascade (c : Controller) :
    (∀ (old : String) (m mat : Material),
        (MaterialValidator.validate m).1 = true →
        ProjectController.find_material c.state old = some mat →
        m.name ≠ old →
        ProjectController.find_material c.state m.name = none →
        (c.state.materials.map (fun x => x.name)).Nodup →
        ∃ c', ProjectController.update_material old m c = (.ok (), c')
          ∧ ProjectController.get_material old c' = none
          ∧ ProjectController.get_material m.name c' = some m
          ∧ c'.state.avatars = c.state.avatars.map (fun a =>
              if a.material_name = old then { a with material_name := m.name } else a)
          ∧ (∀ a ∈ c'.state.avatars, a.material_name ≠ old)
          ∧ c'.state.materials = c.state.materials.set
              (c.state.materials.findIdx (fun x => x.name = old)) m)
    ∧ (∀ (old : String) (m mat : Model),
        (ModelValidator.validate m).1 = true →
        ProjectController.find_model c.state old = some mat →
        m.name ≠ old →
        ProjectController.find_model c.state m.name = none →
        (c.state.models.map (fun x => x.name)).Nodup →
        ∃ c', ProjectController.update_model old m c = (.ok (), c')
          ∧ ProjectController.get_model old c' = none
          ∧ ProjectController.get_model m.name c' = some m
          ∧ c'.state.avatars = c.state.avatars.map (fun a =>
              if a.model_name = old then { a with model_name := m.name } else a)
          ∧ (∀ a ∈ c'.state.avatars, a.model_name ≠ old)
          ∧ c'.state.models = c.state.models.set
              (c.state.models.findIdx (fun x => x.name = old)) m)
    ∧ (∀ (old : String) (m mat : ContactLaw),
        (ContactLawValidator.validate m).1 = true →
        ProjectController.find_contact_law c.state old = some mat →
        m.name ≠ old →
        ProjectController.find_contact_law c.state m.name = none →
        (c.state.contact_laws.map (fun x => x.name)).Nodup →
        ∃ c', ProjectController.update_contact_law old m c = (.ok (), c')
          ∧ ProjectController.get_contact_law old c' = none
          ∧ ProjectController.get_contact_law m.name c' = some m
          ∧ c'.state.visibility_rules = c.state.visibility_rules.map (fun r =>
              if r.behavior_name = old then { r with behavior_name := m.name } else r)
          ∧ (∀ r ∈ c'.state.visibility_rules, r.behavior_name ≠ old)
          ∧ c'.state.contact_laws = c.state.contact_laws.set
              (c.state.contact_laws.findIdx (fun x => x.name = old)) m) := by
  refine ⟨?_, ?_, ?_⟩
  · intro old m mat hval hfind hne hdup hnodup
    have hvor : MaterialValidator.validate_or_raise m = .ok () := by
      unfold MaterialValidator.validate_or_raise
      rcases hv : MaterialValidator.validate m with ⟨b, s⟩
      rw [hv] at hval
      subst hval
      rfl
    have hpx := List.find?_some hfind
    have hmem := List.mem_of_find?_eq_some hfind
    have hidxlt : c.state.materials.findIdx (fun x => x.name = old)
        < c.state.materials.length :=
      List.findIdx_lt_length_of_exists ⟨mat, hmem, hpx⟩
    unfold ProjectController.update_material
    rw [hvor]
    unfold ProjectController.find_material at hfind hdup ⊢
    rw [hfind]
    rw [if_neg (by simp [hdup])]
    rw [if_pos (Ne.symm hne)]
    refine ⟨_, rfl, ?_, ?_, rfl, ?_, rfl⟩
    · exact find?_set_rename_none (fun x => x.name) m c.state.materials old mat
        hfind hnodup hne
    · exact find?_set_fresh _ m (by simp) c.state.materials _ hidxlt
        (by simpa [List.find?_eq_none] using hdup)
    · intro a ha
      simp only [List.mem_map] at ha
      obtain ⟨b, _, rfl⟩ := ha
      by_cases hb : b.material_name = old <;> simp [hb, hne]
  · intro old m mat hval hfind hne hdup hnodup
    have hvor : ModelValidator.validate_or_raise m = .ok () := by
      unfold ModelValidator.validate_or_raise
      rcases hv : ModelValidator.validate m with ⟨b, s⟩
      rw [hv] at hval
      subst hval
      rfl
    have hpx := List.find?_some hfind
    have hmem := List.mem_of_find?_eq_some hfind
    have hidxlt : c.state.models.findIdx (fun x => x.name = old)
        < c.state.models.length :=
      List.findIdx_lt_length_of_exists ⟨mat, hmem, hpx⟩
    unfold ProjectController.update_model
    rw [hvor]
    unfold ProjectController.find_model at hfind hdup ⊢
    rw [hfind]
    rw [if_neg (by simp [hdup])]
    rw [if_pos (Ne.symm hne)]
    refine ⟨_, rfl, ?_, ?_, rfl, ?_, rfl⟩
    · exact find?_set_rename_none (fun x => x.name) m c.state.models old mat
        hfind hnodup hne
    · exact find?_set_fresh _ m (by simp) c.state.models _ hidxlt
        (by simpa [List.find?_eq_none] using hdup)
    · intro a ha
      simp only [List.mem_map] at ha
      obtain ⟨b, _, rfl⟩ := ha
      by_cases hb : b.model_name = old <;> simp [hb, hne]
  · intro old m mat hval hfind hne hdup hnodup
    have hvor : ContactLawValidator.validate_or_raise m = .ok () := by
      unfold ContactLawValidator.validate_or_raise
      rcases hv : ContactLawValidator.validate m with ⟨b, s⟩
      rw [hv] at hval
      subst hval
      rfl
    have hpx := List.find?_some hfind
    have hmem := List.mem_of_find?_eq_some hfind
    have hidxlt : c.state.contact_laws.findIdx (fun x => x.name = old)
        < c.state.contact_laws.length :=
      List.findIdx_lt_length_of_exists ⟨mat, hmem, hpx⟩
    unfold ProjectController.update_contact_law
    rw [hvor]
    unfold ProjectController.find_contact_law at hfind hdup ⊢
    rw [hfind]
    rw [if_neg (by simp [hdup])]
    rw [if_pos (Ne.symm hne)]
    refine ⟨_, rfl, ?_, ?_, rfl, ?_, rfl⟩
    · exact find?_set_rename_none (fun x => x.name) m c.state.contact_laws old mat
        hfind hnodup hne
    · exact find?_set_fresh _ m (by simp) c.state.contact_laws _ hidxlt
        (by simpa [List.find?_eq_none] using hdup)
    · intro r hr
      simp only [List.mem_map] at hr
      obtain ⟨b, _, rfl⟩ := hr
      by_cases hb : b.behavior_name = old <;> simp [hb, hne]

/-- Concrete instance: rename `"M1"` to `"M2"` in `ctrlW6`. -/
def ctrlW6 : Controller :=
  { state :=
      { name := "P"
        materials := [⟨"M1", .RIGID, 2500, []⟩]
        avatars := [{ avatar_type := .RIGID_DISK, center := [0, 0]
                      material_name := "M1", model_name := "mod1", radius := some 1 }] }
    pylmgc_materials := ["M1"]
    pylmgc_models := ["mod1"] }

/-- Witness for `rename_cascade`: renaming `"M1"` to `"M2"` succeeds,
makes `"M1"` unresolvable and rewrites the avatar's reference. -/
theorem rename_cascade_witness :
    ∃ c', ProjectController.update_material "M1" ⟨"M2", .RIGID, 2500, []⟩ ctrlW6 =
        (.ok (), c')
      ∧ ProjectController.get_material "M1" c' = none
      ∧ ProjectController.get_material "M2" c' = some ⟨"M2", .RIGID, 2500, []⟩
      ∧ c'.state.avatars = ctrlW6.state.avatars.map (fun a =>
          if a.material_name = "M1" then { a with material_name := "M2" } else a)
      ∧ (∀ a ∈ c'.state.avatars, a.material_name ≠ "M1")
      ∧ c'.state.materials = ctrlW6.state.materials.set
          (ctrlW6.state.materials.findIdx (fun x => x.name = "M1")) ⟨"M2", .RIGID, 2500, []⟩ :=
  (rename_cascade ctrlW6).1 "M1" ⟨"M2", .RIGID, 2500, []⟩ ⟨"M1", .RIGID, 2500, []⟩
    rfl rfl (by simp) rfl (by simp [ctrlW6])

/-! ### Deleting a set of positions from a list

`removeAt l is` keeps exactly the elements of `l` whose position is not
listed in `is` — the intended effect of deleting the generated avatars of
a generator config.  The lemmas below show the source's strategy (erase
one index at a time, highest first) realizes it. -/

/-- Positions relative to the tail: drop `0`, shift the others down. -/
def shiftIdx (is : List Nat) : List Nat :=
  (is.filter (fun i => i != 0)).map (fun i => i - 1)

/-- Remove the elements at the listed positions. -/
def removeAt {α : Type _} : List α → List Nat → List α
  | [], _ => []
  | x :: xs, is =>
    if 0 ∈ is then removeAt xs (shiftIdx is)
    else x :: removeAt xs (shiftIdx is)

/-- The one-at-a-time deletion loop of `remove_loop`/`remove_granulo`,
restricted to the avatar list (`remove_avatar` erases a valid index and
ignores an out-of-range one). -/
def delFold {α : Type _} (l : List α) (js : List Nat) : List α :=
  js.foldl (fun acc j => if j < acc.length then acc.eraseIdx j else acc) l

lemma shiftIdx_nil : shiftIdx [] = [] := rfl

lemma mem_shiftIdx {k : Nat} {is : List Nat} : k ∈ shiftIdx is ↔ ∃ j ∈ is, j ≠ 0 ∧ j - 1 = k := by
  simp only [shiftIdx, List.mem_map, List.mem_filter, bne_iff_ne, ne_eq]
  constructor
  · rintro ⟨j, ⟨hj, hj0⟩, rfl⟩
    exact ⟨j, hj, hj0, rfl⟩
  · rintro ⟨j, hj, hj0, rfl⟩
    exact ⟨j, ⟨hj, hj0⟩, rfl⟩

lemma removeAt_nil {α : Type _} : ∀ l : List α, removeAt l [] = l
  | [] => rfl
  | x :: xs => by
    simp only [removeAt, shiftIdx_nil]
    rw [if_neg (by simp)]
    rw [removeAt_nil xs]

/-- `removeAt` only looks at which positions are listed, not how often or
in which order. -/
lemma removeAt_congr {α : Type _} :
    ∀ (l : List α) (is js : List Nat), (∀ k, k ∈ is ↔ k ∈ js) →
      removeAt l is = removeAt l js
  | [], _, _, _ => rfl
  | x :: xs, is, js, h => by
    have h0 : (0 ∈ is) = (0 ∈ js) := propext (h 0)
    have hsh : ∀ k, k ∈ shiftIdx is ↔ k ∈ shiftIdx js := by
      intro k
      rw [mem_shiftIdx, mem_shiftIdx]
      constructor
      · rintro ⟨j, hj, hj0, rfl⟩
        exact ⟨j, (h j).mp hj, hj0, rfl⟩
      · rintro ⟨j, hj, hj0, rfl⟩
        exact ⟨j, (h j).mpr hj, hj0, rfl⟩
    simp only [removeAt, h0, removeAt_congr xs _ _ hsh]

/-- Erasing position `d` first and then removing lower positions `rest`
equals removing `{d} ∪ rest` at once. -/
lemma removeAt_eraseIdx {α : Type _} :
    ∀ (l : List α) (d : Nat) (rest : List Nat), d < l.length →
      (∀ i ∈ rest, i < d) →
      removeAt (l.eraseIdx d) rest = removeAt l (d :: rest)
  | [], d, rest, h, _ => absurd h (by simp)
  | x :: xs, 0, rest, _, hrest => by
    have hnil : rest = [] := by
      cases rest with
      | nil => rfl
      | cons a as => exact absurd (hrest a (List.mem_cons_self a as)) (by omega)
    subst hnil
    rw [List.eraseIdx_cons_zero, removeAt_nil]
    show _ = removeAt (x :: xs) [0]
    simp only [removeAt]
    rw [if_pos (by simp)]
    rw [show shiftIdx [0] = [] from rfl, removeAt_nil]
  | x :: xs, d + 1, rest, h, hrest => by
    rw [List.eraseIdx_cons_succ]
    have hc0 : (0 ∈ ((d + 1) :: rest)) = (0 ∈ rest) := by
      simp
    have hshift : shiftIdx ((d + 1) :: rest) = d :: shiftIdx rest := by
      simp [shiftIdx, List.filter_cons]
    have hih : removeAt (xs.eraseIdx d) (shiftIdx rest) =
        removeAt xs (d :: shiftIdx rest) := by
      refine removeAt_eraseIdx xs d (shiftIdx rest) (by simpa using h) ?_
      intro i hi
      rw [mem_shiftIdx] at hi
      obtain ⟨j, hj, hj0, rfl⟩ := hi
      have := hrest j hj
      omega
    show removeAt (x :: xs.eraseIdx d) rest = removeAt (x :: xs) ((d + 1) :: rest)
    simp only [removeAt, hc0, hshift, hih]

/-- Deleting strictly descending in-range positions one at a time removes
exactly the listed positions. -/
lemma delFold_eq_removeAt {α : Type _} :
    ∀ (js : List Nat) (l : List α), js.Sorted (· > ·) →
      (∀ j ∈ js, j < l.length) → delFold l js = removeAt l js
  | [], l, _, _ => (removeAt_nil l).symm
  | d :: rest, l, hsort, hbound => by
    have hd : d < l.length := hbound d (List.mem_cons_self d rest)
    have hrest_lt : ∀ i ∈ rest, i < d := fun i hi =>
      (List.sorted_cons.mp hsort).1 i hi
    have hlen : (l.eraseIdx d).length = l.length - 1 := by
      rw [List.length_eraseIdx]
      simp [hd]
    have hrest_bound : ∀ j ∈ rest, j < (l.eraseIdx d).length := by
      intro j hj
      have h1 := hrest_lt j hj
      omega
    have hstep : delFold l (d :: rest) = delFold (l.eraseIdx d) rest := by
      simp [delFold, List.foldl_cons, hd]
    rw [hstep,
      delFold_eq_removeAt rest (l.eraseIdx d) (List.sorted_cons.mp hsort).2 hrest_bound,
      removeAt_eraseIdx l d rest hd hrest_lt]

lemma insertDesc_perm (x : Nat) :
    ∀ l : List Nat, List.Perm (ProjectController.insertDesc x l) (x :: l)
  | [] => List.Perm.refl _
  | y :: ys => by
    unfold ProjectController.insertDesc
    split
    · exact List.Perm.refl _
    · exact ((insertDesc_perm x ys).cons y).trans (List.Perm.swap x y ys)

lemma sortDesc_perm (l : List Nat) : List.Perm (ProjectController.sortDesc l) l := by
  induction l with
  | nil => exact List.Perm.refl _
  | cons a l ih =>
    unfold ProjectController.sortDesc at ih ⊢
    rw [List.foldr_cons]
    exact (insertDesc_perm a _).trans (ih.cons a)

lemma mem_insertDesc {a x : Nat} {l : List Nat} :
    a ∈ ProjectController.insertDesc x l ↔ a = x ∨ a ∈ l := by
  rw [(insertDesc_perm x l).mem_iff, List.mem_cons]

lemma insertDesc_sorted (x : Nat) :
    ∀ l : List Nat, l.Sorted (· ≥ ·) → (ProjectController.insertDesc x l).Sorted (· ≥ ·)
  | [], _ => List.sorted_singleton x
  | y :: ys, h => by
    unfold ProjectController.insertDesc
    split
    · rename_i hyx
      rw [List.sorted_cons]
      refine ⟨?_, h⟩
      intro b hb
      rcases List.mem_cons.mp hb with rfl | hb
      · exact hyx
      · exact le_trans ((List.sorted_cons.mp h).1 b hb) hyx
    · rename_i hyx
      rw [List.sorted_cons]
      constructor
      · intro b hb
        rcases mem_insertDesc.mp hb with rfl | hb
        · omega
        · exact (List.sorted_cons.mp h).1 b hb
      · exact insertDesc_sorted x ys (List.sorted_cons.mp h).2

lemma sortDesc_sorted (l : List Nat) : (ProjectController.sortDesc l).Sorted (· ≥ ·) := by
  induction l with
  | nil => exact List.sorted_nil
  | cons a l ih =>
    unfold ProjectController.sortDesc at ih ⊢
    rw [List.foldr_cons]
    exact insertDesc_sorted a _ ih

/-- A duplicate-free descending sort is strictly descending. -/
lemma sortDesc_strict (l : List Nat) (h : l.Nodup) :
    (ProjectController.sortDesc l).Sorted (· > ·) := by
  have hnd : (ProjectController.sortDesc l).Nodup := ((sortDesc_perm l).nodup_iff).mpr h
  have hs := sortDesc_sorted l
  exact (List.Pairwise.and hs hnd).imp (fun hab => lt_of_le_of_ne hab.1 (Ne.symm hab.2))

/-- The deletion loop of the generator removers only rewrites the avatar
list. -/
lemma foldl_remove_avatar (js : List Nat) :
    ∀ c : Controller,
      js.foldl (fun acc i => (ProjectController.remove_avatar i acc).2) c =
        { c with state := { c.state with avatars := delFold c.state.avatars js } } := by
  induction js with
  | nil => intro c; simp [delFold]
  | cons j js ih =>
    intro c
    rw [List.foldl_cons]
    by_cases hj : j < c.state.avatars.length
    · rw [show (ProjectController.remove_avatar j c).2 =
          { c with state := { c.state with avatars := c.state.avatars.eraseIdx j } } by
        simp [ProjectController.remove_avatar, hj]]
      rw [ih]
      simp [delFold, List.foldl_cons, hj]
    · rw [show (ProjectController.remove_avatar j c).2 = c by
        simp [ProjectController.remove_avatar, hj]]
      rw [ih]
      simp [delFold, List.foldl_cons, hj]

/-- C5: for a valid loop index with duplicate-free, in-range
`generated_indices`, `remove_loop` deletes exactly the avatars at those
positions (the descending deletion order keeps every not-yet-deleted
position stable) and then drops the loop config; `remove_granulo` does the
same for its config; an out-of-range index returns `False` and changes
nothing. -/
theorem remove_generator_owned_avatars (c : Controller) :
    (∀ (index : Nat) (h : index < c.state.loops.length),
        (c.state.loops.get ⟨index, h⟩).generated_indices.Nodup →
        (∀ i ∈ (c.state.loops.get ⟨index, h⟩).generated_indices,
            i < c.state.avatars.length) →
        ProjectController.remove_loop index c =
          (true, { c with state := { c.state with
            avatars := removeAt c.state.avatars
              (c.state.loops.get ⟨index, h⟩).generated_indices
            loops := c.state.loops.eraseIdx index } }))
    ∧ (∀ index : Nat, c.state.loops.length ≤ index →
        ProjectController.remove_loop index c = (false, c))
    ∧ (∀ (index : Nat) (h : index < c.state.granulo_generations.length),
        (c.state.granulo_generations.get ⟨index, h⟩).generated_indices.Nodup →
        (∀ i ∈ (c.state.granulo_generations.get ⟨index, h⟩).generated_indices,
            i < c.state.avatars.length) →
        ProjectController.remove_granulo index c =
          (true, { c with state := { c.state with
            avatars := removeAt c.state.avatars
              (c.state.granulo_generations.get ⟨index, h⟩).generated_indices
            granulo_generations := c.state.granulo_generations.eraseIdx index } }))
    ∧ (∀ index : Nat, c.state.granulo_generations.length ≤ index →
        ProjectController.remove_granulo index c = (false, c)) := by
  have hdel : ∀ (gen : List Nat), gen.Nodup →
      (∀ i ∈ gen, i < c.state.avatars.length) →
      delFold c.state.avatars (ProjectController.sortDesc gen) =
        removeAt c.state.avatars gen := by
    intro gen hnd hb
    rw [delFold_eq_removeAt (ProjectController.sortDesc gen) c.state.avatars
      (sortDesc_strict gen hnd)
      (fun j hj => hb j ((sortDesc_perm gen).mem_iff.mp hj))]
    exact removeAt_congr c.state.avatars _ _ (fun k => (sortDesc_perm gen).mem_iff)
  refine ⟨?_, ?_, ?_, ?_⟩
  · intro index h hnd hb
    unfold ProjectController.remove_loop
    rw [dif_pos h]
    simp only [foldl_remove_avatar, hdel _ hnd hb]
  · intro index hge
    unfold ProjectController.remove_loop
    rw [dif_neg (by omega)]
  · intro index h hnd hb
    unfold ProjectController.remove_granulo
    rw [dif_pos h]
    simp only [foldl_remove_avatar, hdel _ hnd hb]
  · intro index hge
    unfold ProjectController.remove_granulo
    rw [dif_neg (by omega)]

/-- Concrete instance: avatar 0 is the template, avatars 1 and 2 were
generated by the loop. -/
def ctrlW5 : Controller :=
  { state :=
      { name := "P"
        avatars := [avatarManualW, { avatarLoopW with center := [1, 0] },
                    { avatarLoopW with center := [2, 0] }]
        loops := [{ loop_type := "Ligne", model_avatar_index := 0, count := 2
                    step := 1, generated_indices := [1, 2] }] } }

/-- Witness for `remove_generator_owned_avatars`: removing loop 0 of
`ctrlW5` deletes avatars 1 and 2 and the loop config. -/
theorem remove_generator_owned_avatars_witness :
    ProjectController.remove_loop 0 ctrlW5 =
      (true, { ctrlW5 with state := { ctrlW5.state with
        avatars := removeAt ctrlW5.state.avatars [1, 2]
        loops := [] } }) := by
  have h0 : (0 : Nat) < ctrlW5.state.loops.length := by simp [ctrlW5]
  have := (remove_generator_owned_avatars ctrlW5).1 0 h0 (by simp [ctrlW5])
    (by intro i hi; simp [ctrlW5] at hi ⊢; omega)
  simpa [ctrlW5] using this

/-! ### Replay invariants -/

/-- What a generator invocation under `_is_loading` may do to the
controller: append avatars (and touch the avatar groups); every other
entity list, the flag and the backend mirrors stay as they were. -/
def ExtendsOnly (c c' : Controller) : Prop :=
  c'.state.name = c.state.name
  ∧ c'.state.dimension = c.state.dimension
  ∧ c'.state.units = c.state.units
  ∧ c'.state.materials = c.state.materials
  ∧ c'.state.models = c.state.models
  ∧ c'.state.contact_laws = c.state.contact_laws
  ∧ c'.state.visibility_rules = c.state.visibility_rules
  ∧ c'.state.operations = c.state.operations
  ∧ c'.state.loops = c.state.loops
  ∧ c'.state.granulo_generations = c.state.granulo_generations
  ∧ c'.state.postpro_commands = c.state.postpro_commands
  ∧ c'.state.dynamic_vars = c.state.dynamic_vars
  ∧ c'.state.load_warnings = c.state.load_warnings
  ∧ c'.is_loading = c.is_loading
  ∧ c'.pylmgc_materials = c.pylmgc_materials
  ∧ c'.pylmgc_models = c.pylmgc_models
  ∧ c'.pylmgc_laws = c.pylmgc_laws
  ∧ ∃ tail, c'.state.avatars = c.state.avatars ++ tail

lemma ExtendsOnly.refl (c : Controller) : ExtendsOnly c c := by
  refine ⟨rfl, rfl, rfl, rfl, rfl, rfl, rfl, rfl, rfl, rfl, rfl, rfl, rfl, rfl,
    rfl, rfl, rfl, [], ?_⟩
  simp

lemma ExtendsOnly.trans {a b c : Controller}
    (h1 : ExtendsOnly a b) (h2 : ExtendsOnly b c) : ExtendsOnly a c := by
  obtain ⟨n1, d1, u1, m1, mo1, cl1, v1, o1, l1, g1, p1, dv1, w1, il1, pm1, pmo1, pl1,
    t1, ht1⟩ := h1
  obtain ⟨n2, d2, u2, m2, mo2, cl2, v2, o2, l2, g2, p2, dv2, w2, il2, pm2, pmo2, pl2,
    t2, ht2⟩ := h2
  refine ⟨n2.trans n1, d2.trans d1, u2.trans u1, m2.trans m1, mo2.trans mo1,
    cl2.trans cl1, v2.trans v1, o2.trans o1, l2.trans l1, g2.trans g1,
    p2.trans p1, dv2.trans dv1, w2.trans w1, il2.trans il1, pm2.trans pm1,
    pmo2.trans pmo1, pl2.trans pl1, t1 ++ t2, ?_⟩
  rw [ht2, ht1, List.append_assoc]

/-- `add_avatar` either rejects (controller untouched) or appends one
avatar. -/
lemma add_avatar_extends (a : Avatar) (c : Controller) :
    ExtendsOnly c (ProjectController.add_avatar a c).2 := by
  unfold ProjectController.add_avatar
  cases hv : AvatarValidator.validate_or_raise a c.state.dimension with
  | error e => exact ExtendsOnly.refl c
  | ok _ =>
    by_cases hm : c.pylmgc_materials.contains a.material_name
    · by_cases ho : c.pylmgc_models.contains a.model_name
      · simp only [hm, ho, not_true_eq_false, if_false, reduceIte]
        exact ⟨rfl, rfl, rfl, rfl, rfl, rfl, rfl, rfl, rfl, rfl, rfl, rfl, rfl, rfl,
          rfl, rfl, rfl, [a], rfl⟩
      · simp only [hm, ho, not_true_eq_false, not_false_eq_true, if_false, if_true,
          reduceIte]
        exact ExtendsOnly.refl c
    · simp only [hm, not_false_eq_true, if_true, reduceIte]
      exact ExtendsOnly.refl c

lemma genLoopAvatars_extends (ma : Avatar) :
    ∀ (centers : List (List ℚ)) (c : Controller),
      ExtendsOnly c (ProjectController.genLoopAvatars ma centers c).2
  | [], c => ExtendsOnly.refl c
  | ctr :: rest, c => by
    have ha := add_avatar_extends { ma with center := ctr, origin := AvatarOrigin.LOOP } c
    unfold ProjectController.genLoopAvatars
    rcases hadd : ProjectController.add_avatar
        { ma with center := ctr, origin := AvatarOrigin.LOOP } c with ⟨r, c1⟩
    rw [hadd] at ha
    simp only [hadd]
    cases r with
    | error e => exact ha
    | ok idx =>
      have hrec := genLoopAvatars_extends ma rest c1
      rcases hg : ProjectController.genLoopAvatars ma rest c1 with ⟨r2, c2⟩
      rw [hg] at hrec
      simp only [hg]
      cases r2 with
      | error e => exact ha.trans hrec
      | ok idxs => exact ha.trans hrec

/-- Under `_is_loading`, `generate_loop` only appends avatars (and touches
groups); in particular it never appends the loop config. -/
lemma generate_loop_extends (t : Trig) (loop : Loop) (c : Controller)
    (hload : c.is_loading = true) :
    ExtendsOnly c (ProjectController.generate_loop t loop c).2 := by
  unfold ProjectController.generate_loop
  split
  · rcases hp : LoopGenerator.generate_positions t loop with e | centers
    · simp only [hp]
      exact ExtendsOnly.refl c
    · simp only [hp]
      have hg := genLoopAvatars_extends
        (c.state.avatars.get ⟨loop.model_avatar_index, by assumption⟩) centers c
      rcases hga : ProjectController.genLoopAvatars
          (c.state.avatars.get ⟨loop.model_avatar_index, by assumption⟩) centers c with ⟨r, c1⟩
      rw [hga] at hg
      cases r with
      | error e => exact hg
      | ok idxs =>
        have hl1 : c1.is_loading = true := by
          rw [hg.2.2.2.2.2.2.2.2.2.2.2.2.2.1]
          exact hload
        simp only [hl1, if_true, reduceIte]
        cases hgn : loop.group_name with
        | none => exact hg
        | some g =>
          refine hg.trans ?_
          refine ⟨rfl, rfl, rfl, rfl, rfl, rfl, rfl, rfl, rfl, rfl, rfl, rfl, rfl,
            ?_, rfl, rfl, rfl, [], by simp⟩
          exact hl1.symm
  · exact ExtendsOnly.refl c

lemma genGranuloAvatars_extends (config : GranuloGeneration) (coords : List (List ℚ))
    (radii : List ℚ) :
    ∀ (is : List Nat) (c : Controller),
      ExtendsOnly c (ProjectController.genGranuloAvatars config coords radii is c).2
  | [], c => ExtendsOnly.refl c
  | i :: rest, c => by
    unfold ProjectController.genGranuloAvatars
    rcases hc : coords[i]? with _ | ctr
    · simp only [hc]
      exact ExtendsOnly.refl c
    · rcases hr : radii[i]? with _ | r
      · simp only [hc, hr]
        exact ExtendsOnly.refl c
      · rcases hty : AvatarType.fromString config.avatar_type with _ | ty
        · simp only [hc, hr, hty]
          exact ExtendsOnly.refl c
        · have ha := add_avatar_extends
            { avatar_type := ty, center := ctr
              material_name := config.material_name, model_name := config.model_name
              color := config.color, origin := AvatarOrigin.GRANULO
              radius := some r } c
          rcases hadd : ProjectController.add_avatar
              { avatar_type := ty, center := ctr
                material_name := config.material_name, model_name := config.model_name
                color := config.color, origin := AvatarOrigin.GRANULO
                radius := some r } c with ⟨res, c1⟩
          rw [hadd] at ha
          simp only [hc, hr, hty, hadd]
          cases res with
          | error e => exact ha
          | ok idx =>
            have hrec := genGranuloAvatars_extends config coords radii rest c1
            rcases hg : ProjectController.genGranuloAvatars config coords radii rest c1
              with ⟨r2, c2⟩
            rw [hg] at hrec
            simp only [hg]
            cases r2 with
            | error e => exact ha.trans hrec
            | ok idxs => exact ha.trans hrec

/-- Under `_is_loading`, `generate_granulo` only appends avatars (and
touches groups); it never appends the granulo config. -/
lemma generate_granulo_extends (env : GranuloEnv) (config : GranuloGeneration)
    (c : Controller) (hload : c.is_loading = true) :
    ExtendsOnly c (ProjectController.generate_granulo env config c).2 := by
  unfold ProjectController.generate_granulo
  rcases hg : GranuloGenerator.generate env config with e | res
  · simp only [hg]
    exact ExtendsOnly.refl c
  · obtain ⟨nb, coords, radii⟩ := res
    simp only [hg]
    have hga := genGranuloAvatars_extends config coords radii (List.range nb) c
    rcases hgg : ProjectController.genGranuloAvatars config coords radii (List.range nb) c
      with ⟨r, c1⟩
    rw [hgg] at hga
    cases r with
    | error e => exact hga
    | ok idxs =>
      have hl1 : c1.is_loading = true := by
        rw [hga.2.2.2.2.2.2.2.2.2.2.2.2.2.1]
        exact hload
      simp only [hl1, if_true, reduceIte]
      cases hgn : config.group_name with
      | none => exact hga
      | some g =>
        refine hga.trans ?_
        refine ⟨rfl, rfl, rfl, rfl, rfl, rfl, rfl, rfl, rfl, rfl, rfl, rfl, rfl,
          ?_, rfl, rfl, rfl, [], by simp⟩
        exact hl1.symm

/-- Loop replay preserves everything except avatars/groups, keeps the
stored config count, and continues past failures. -/
lemma replayLoops_extends (t : Trig) :
    ∀ (ls : List Loop) (i : Nat) (c : Controller), c.is_loading = true →
      ExtendsOnly c (replayLoops t ls i c).2.2
      ∧ (replayLoops t ls i c).2.1.length = ls.length
  | [], i, c, _ => ⟨ExtendsOnly.refl c, rfl⟩
  | loop :: rest, i, c, hload => by
    unfold replayLoops
    by_cases hidx : c.state.avatars.length ≤ loop.model_avatar_index
    · simp only [hidx, if_true, reduceIte]
      have h2 := replayLoops_extends t rest (i + 1) c hload
      exact ⟨h2.1, by simpa using h2.2⟩
    · simp only [hidx, if_false, reduceIte]
      have hgl := generate_loop_extends t loop c hload
      rcases hg : ProjectController.generate_loop t loop c with ⟨r, c1⟩
      rw [hg] at hgl
      have hl1 : c1.is_loading = true := by
        rw [hgl.2.2.2.2.2.2.2.2.2.2.2.2.2.1]
        exact hload
      cases r with
      | error e =>
        have h2 := replayLoops_extends t rest (i + 1) c1 hl1
        exact ⟨hgl.trans h2.1, by simpa using h2.2⟩
      | ok v =>
        obtain ⟨idxs, loop'⟩ := v
        have h2 := replayLoops_extends t rest (i + 1) c1 hl1
        exact ⟨hgl.trans h2.1, by simpa using h2.2⟩

/-- Each loop-replay warning names a generator (`"Boucle N: ..."` with a
1-based position in range). -/
lemma replayLoops_warnings (t : Trig) :
    ∀ (ls : List Loop) (i : Nat) (c : Controller),
      ∀ w ∈ (replayLoops t ls i c).1,
        ∃ j msg, i ≤ j ∧ j < i + ls.length ∧
          w = "Boucle " ++ toString (j + 1) ++ ": " ++ msg
  | [], i, c => by simp [replayLoops]
  | loop :: rest, i, c => by
    unfold replayLoops
    by_cases hidx : c.state.avatars.length ≤ loop.model_avatar_index
    · simp only [hidx, if_true, reduceIte]
      intro w hw
      rcases List.mem_cons.mp hw with rfl | hw
      · exact ⟨i, _, le_refl i, by simp, rfl⟩
      · obtain ⟨j, msg, hij, hjlt, rfl⟩ := replayLoops_warnings t rest (i + 1) c w hw
        exact ⟨j, msg, by omega, by simp at hjlt ⊢; omega, rfl⟩
    · simp only [hidx, if_false, reduceIte]
      rcases hg : ProjectController.generate_loop t loop c with ⟨r, c1⟩
      cases r with
      | error e =>
        intro w hw
        rcases List.mem_cons.mp hw with rfl | hw
        · exact ⟨i, e.msg, le_refl i, by simp, rfl⟩
        · obtain ⟨j, msg, hij, hjlt, rfl⟩ := replayLoops_warnings t rest (i + 1) c1 w hw
          exact ⟨j, msg, by omega, by simp at hjlt ⊢; omega, rfl⟩
      | ok v =>
        obtain ⟨idxs, loop'⟩ := v
        intro w hw
        obtain ⟨j, msg, hij, hjlt, rfl⟩ := replayLoops_warnings t rest (i + 1) c1 w hw
        exact ⟨j, msg, by omega, by simp at hjlt ⊢; omega, rfl⟩

/-- Granulo replay preserves everything except avatars/groups and keeps
the stored config count. -/
lemma replayGranulos_extends (envs : Nat → GranuloEnv) :
    ∀ (gs : List GranuloGeneration) (i : Nat) (c : Controller), c.is_loading = true →
      ExtendsOnly c (replayGranulos envs gs i c).2.2
      ∧ (replayGranulos envs gs i c).2.1.length = gs.length
  | [], i, c, _ => ⟨ExtendsOnly.refl c, rfl⟩
  | g :: rest, i, c, hload => by
    unfold replayGranulos
    have hgg := generate_granulo_extends (envs i) g c hload
    rcases hg : ProjectController.generate_granulo (envs i) g c with ⟨r, c1⟩
    rw [hg] at hgg
    have hl1 : c1.is_loading = true := by
      rw [hgg.2.2.2.2.2.2.2.2.2.2.2.2.2.1]
      exact hload
    cases r with
    | error e =>
      have h2 := replayGranulos_extends envs rest (i + 1) c1 hl1
      exact ⟨hgg.trans h2.1, by simpa using h2.2⟩
    | ok v =>
      obtain ⟨idxs, g'⟩ := v
      have h2 := replayGranulos_extends envs rest (i + 1) c1 hl1
      exact ⟨hgg.trans h2.1, by simpa using h2.2⟩

/-- Each granulo-replay warning names a generator
(`"Granulo N: ..."` with a 1-based position in range). -/
lemma replayGranulos_warnings (envs : Nat → GranuloEnv) :
    ∀ (gs : List GranuloGeneration) (i : Nat) (c : Controller),
      ∀ w ∈ (replayGranulos envs gs i c).1,
        ∃ j msg, i ≤ j ∧ j < i + gs.length ∧
          w = "Granulo " ++ toString (j + 1) ++ ": " ++ msg
  | [], i, c => by simp [replayGranulos]
  | g :: rest, i, c => by
    unfold replayGranulos
    rcases hg : ProjectController.generate_granulo (envs i) g c with ⟨r, c1⟩
    cases r with
    | error e =>
      intro w hw
      rcases List.mem_cons.mp hw with rfl | hw
      · exact ⟨i, e.msg, le_refl i, by simp, rfl⟩
      · obtain ⟨j, msg, hij, hjlt, rfl⟩ := replayGranulos_warnings envs rest (i + 1) c1 w hw
        exact ⟨j, msg, by omega, by simp at hjlt ⊢; omega, rfl⟩
    | ok v =>
      obtain ⟨idxs, g'⟩ := v
      intro w hw
      obtain ⟨j, msg, hij, hjlt, rfl⟩ := replayGranulos_warnings envs rest (i + 1) c1 w hw
      exact ⟨j, msg, by omega, by simp at hjlt ⊢; omega, rfl⟩

/-- The manual-avatar pass succeeds exactly when every avatar's material
and model handle exists. -/
lemma checkManualAvatars_ok_iff :
    ∀ (avs : List Avatar) (pm pmo : List String),
      checkManualAvatars avs pm pmo = .ok () ↔
        ∀ a ∈ avs, a.material_name ∈ pm ∧ a.model_name ∈ pmo
  | [], pm, pmo => by simp [checkManualAvatars]
  | a :: rest, pm, pmo => by
    unfold checkManualAvatars
    by_cases hm : pm.contains a.material_name
    · by_cases ho : pmo.contains a.model_name
      · rw [if_neg (by simpa using hm), if_neg (by simpa using ho)]
        rw [checkManualAvatars_ok_iff rest pm pmo]
        constructor
        · intro h b hb
          rcases List.mem_cons.mp hb with rfl | hb
          · exact ⟨by simpa using hm, by simpa using ho⟩
          · exact h b hb
        · intro h b hb
          exact h b (List.mem_cons_of_mem a hb)
      · rw [if_neg (by simpa using hm), if_pos (by simpa using ho)]
        constructor
        · intro h
          exact absurd h (by simp)
        · intro h
          exact absurd ((h a (List.mem_cons_self a rest)).2)
            (by simpa using ho)
    · rw [if_pos (by simpa using hm)]
      constructor
      · intro h
        exact absurd h (by simp)
      · intro h
        exact absurd ((h a (List.mem_cons_self a rest)).1)
          (by simpa using hm)

/-- The visibility pass succeeds exactly when every rule's law handle
exists. -/
lemma checkVisibilityRules_ok_iff :
    ∀ (rules : List VisibilityRule) (plaws : List String),
      checkVisibilityRules rules plaws = .ok () ↔
        ∀ r ∈ rules, r.behavior_name ∈ plaws
  | [], plaws => by simp [checkVisibilityRules]
  | r :: rest, plaws => by
    unfold checkVisibilityRules
    by_cases hb : plaws.contains r.behavior_name
    · rw [if_neg (by simpa using hb)]
      rw [checkVisibilityRules_ok_iff rest plaws]
      constructor
      · intro h b hbmem
        rcases List.mem_cons.mp hbmem with rfl | hbmem
        · exact (by simpa using hb)
        · exact h b hbmem
      · intro h b hbmem
        exact h b (List.mem_cons_of_mem r hbmem)
    · rw [if_pos (by simpa using hb)]
      constructor
      · intro h
        exact absurd h (by simp)
      · intro h
        exact absurd (h r (List.mem_cons_self r rest))
          (by simpa using hb)

/-- Key membership in a freshly rebuilt handle dictionary. -/
lemma mem_insertKey {k n : String} {ks : List String} :
    k ∈ insertKey n ks ↔ k = n ∨ k ∈ ks := by
  unfold insertKey
  split
  · rename_i h
    constructor
    · exact Or.inr
    · rintro (rfl | hk)
      · exact List.elem_iff.mp h
      · exact hk
  · simp [List.mem_append, or_comm]

lemma mem_insertKeys {k : String} :
    ∀ (names ks : List String), k ∈ insertKeys names ks ↔ k ∈ names ∨ k ∈ ks
  | [], ks => by simp [insertKeys]
  | n :: ns, ks => by
    show k ∈ insertKeys ns (insertKey n ks) ↔ _
    rw [mem_insertKeys ns (insertKey n ks), mem_insertKey]
    simp [List.mem_cons]
    tauto

/-- The DOF replay pass leaves tracked state unchanged
(`apply_dof_operation` drives only backend handles). -/
lemma foldl_apply_dof (ops : List DOFOperation) (c : Controller) :
    ops.foldl (fun acc op => ProjectController.apply_dof_operation op acc) c = c := by
  induction ops with
  | nil => rfl
  | cons op ops ih => exact ih

/-- One step of the loop replay whose pre-check fails: the failure is
caught, becomes the warning naming generator `i+1`, the config is kept and
the pass continues with the remaining configs on the same controller. -/
lemma replayLoops_cons_precheck (t : Trig) (loop : Loop) (ls : List Loop)
    (i : Nat) (c : Controller)
    (h : c.state.avatars.length ≤ loop.model_avatar_index) :
    replayLoops t (loop :: ls) i c =
      (("Boucle " ++ toString (i + 1) ++ ": " ++
          ("Index modèle " ++ toString loop.model_avatar_index ++ " invalide")) ::
        (replayLoops t ls (i + 1) c).1,
       loop :: (replayLoops t ls (i + 1) c).2.1,
       (replayLoops t ls (i + 1) c).2.2) := by
  conv_lhs => rw [replayLoops]
  rw [if_pos h]

/-- One step of the loop replay where `generate_loop` raises: the exception
is caught, becomes the warning naming generator `i+1` and carrying the
exception message, the config is kept and the pass continues with the
remaining configs on the partially mutated controller. -/
lemma replayLoops_cons_error (t : Trig) (loop : Loop) (ls : List Loop)
    (i : Nat) (c c1 : Controller) (e : Err)
    (hidx : ¬ c.state.avatars.length ≤ loop.model_avatar_index)
    (hgen : ProjectController.generate_loop t loop c = (.error e, c1)) :
    replayLoops t (loop :: ls) i c =
      (("Boucle " ++ toString (i + 1) ++ ": " ++ e.msg) ::
        (replayLoops t ls (i + 1) c1).1,
       loop :: (replayLoops t ls (i + 1) c1).2.1,
       (replayLoops t ls (i + 1) c1).2.2) := by
  conv_lhs => rw [replayLoops]
  rw [if_neg hidx, hgen]

/-- One successful step of the loop replay: no warning is emitted, the
updated config is stored and the pass continues. -/
lemma replayLoops_cons_ok (t : Trig) (loop : Loop) (ls : List Loop)
    (i : Nat) (c c1 : Controller) (idxs : List Nat) (loop2 : Loop)
    (hidx : ¬ c.state.avatars.length ≤ loop.model_avatar_index)
    (hgen : ProjectController.generate_loop t loop c = (.ok (idxs, loop2), c1)) :
    replayLoops t (loop :: ls) i c =
      ((replayLoops t ls (i + 1) c1).1,
       loop2 :: (replayLoops t ls (i + 1) c1).2.1,
       (replayLoops t ls (i + 1) c1).2.2) := by
  conv_lhs => rw [replayLoops]
  rw [if_neg hidx, hgen]

/-- One step of the granulo replay where `generate_granulo` raises: the
exception is caught, becomes the warning naming generator `i+1` and
carrying the exception message, the config is kept and the pass
continues. -/
lemma replayGranulos_cons_error (envs : Nat → GranuloEnv) (g : GranuloGeneration)
    (gs : List GranuloGeneration) (i : Nat) (c c1 : Controller) (e : Err)
    (hgen : ProjectController.generate_granulo (envs i) g c = (.error e, c1)) :
    replayGranulos envs (g :: gs) i c =
      (("Granulo " ++ toString (i + 1) ++ ": " ++ e.msg) ::
        (replayGranulos envs gs (i + 1) c1).1,
       g :: (replayGranulos envs gs (i + 1) c1).2.1,
       (replayGranulos envs gs (i + 1) c1).2.2) := by
  conv_lhs => rw [replayGranulos]
  rw [hgen]

/-- The rebuilt manual-avatar pass succeeds exactly when every Manual
avatar's material and model exist in the store. -/
lemma checkManualAvatars_rebuilt_iff (c : Controller) :
    checkManualAvatars
        ((rebuildMatMod (resetMirrors c)).state.avatars.filter
          (fun a => a.origin = AvatarOrigin.MANUAL))
        (rebuildMatMod (resetMirrors c)).pylmgc_materials
        (rebuildMatMod (resetMirrors c)).pylmgc_models = .ok () ↔
      ∀ a ∈ c.state.avatars, a.origin = AvatarOrigin.MANUAL →
        a.material_name ∈ c.state.materials.map (fun m => m.name) ∧
        a.model_name ∈ c.state.models.map (fun m => m.name) := by
  rw [checkManualAvatars_ok_iff]
  have hmm : ∀ k, k ∈ (rebuildMatMod (resetMirrors c)).pylmgc_materials ↔
      k ∈ c.state.materials.map (fun m => m.name) := by
    intro k
    have := @mem_insertKeys k (c.state.materials.map (fun m => m.name)) []
    simpa using this
  have hmo : ∀ k, k ∈ (rebuildMatMod (resetMirrors c)).pylmgc_models ↔
      k ∈ c.state.models.map (fun m => m.name) := by
    intro k
    have := @mem_insertKeys k (c.state.models.map (fun m => m.name)) []
    simpa using this
  have hflt : ∀ a : Avatar,
      a ∈ (rebuildMatMod (resetMirrors c)).state.avatars.filter
        (fun a => a.origin = AvatarOrigin.MANUAL) ↔
      (a ∈ c.state.avatars ∧ a.origin = AvatarOrigin.MANUAL) := by
    intro a
    have hb : (rebuildMatMod (resetMirrors c)).state.avatars = c.state.avatars := rfl
    rw [hb, List.mem_filter]
    simp
  constructor
  · intro h a ha ho
    have := h a ((hflt a).mpr ⟨ha, ho⟩)
    exact ⟨(hmm _).mp this.1, (hmo _).mp this.2⟩
  · intro h a ha
    obtain ⟨ha1, ha2⟩ := (hflt a).mp ha
    have := h a ha1 ha2
    exact ⟨(hmm _).mpr this.1, (hmo _).mpr this.2⟩

/-- When the manual-avatar pass succeeds, the warnings attached by
`_rebuild_pylmgc_objects` to a store that carried none are exactly the
concatenation of the lists collected by the loop and granulo replay
passes (`self.state.load_warnings = regeneration_errors` whenever that
list is non-empty, and both are empty otherwise). -/
lemma rebuild_warnings_exact (t : Trig) (envs : Nat → GranuloEnv) (c : Controller)
    (hload : c.is_loading = true)
    (hmanual : ∀ a ∈ c.state.avatars, a.origin = AvatarOrigin.MANUAL →
        a.material_name ∈ c.state.materials.map (fun m => m.name) ∧
        a.model_name ∈ c.state.models.map (fun m => m.name))
    (hwarn0 : c.state.load_warnings = []) :
    ∃ lw loops2 c2 gw grans2 c3,
      replayLoops t c.state.loops 0 (rebuildMatMod (resetMirrors c)) = (lw, loops2, c2)
      ∧ replayGranulos envs c.state.granulo_generations 0 (setLoops loops2 c2) =
          (gw, grans2, c3)
      ∧ (rebuild t envs c).2.state.load_warnings = lw ++ gw := by
  have hbase_load : (rebuildMatMod (resetMirrors c)).is_loading = true := hload
  have hcm : checkManualAvatars
      ((rebuildMatMod (resetMirrors c)).state.avatars.filter
        (fun a => a.origin = AvatarOrigin.MANUAL))
      (rebuildMatMod (resetMirrors c)).pylmgc_materials
      (rebuildMatMod (resetMirrors c)).pylmgc_models = .ok () :=
    (checkManualAvatars_rebuilt_iff c).mpr hmanual
  obtain ⟨lw, loops2, c2, hrl⟩ :
      ∃ x y z, replayLoops t (rebuildMatMod (resetMirrors c)).state.loops 0
        (rebuildMatMod (resetMirrors c)) = (x, y, z) := ⟨_, _, _, rfl⟩
  have hle := replayLoops_extends t (rebuildMatMod (resetMirrors c)).state.loops 0
    (rebuildMatMod (resetMirrors c)) hbase_load
  rw [hrl] at hle
  have hEO1 : ExtendsOnly (rebuildMatMod (resetMirrors c)) c2 := hle.1
  obtain ⟨e1n, e1d, e1u, e1mat, e1mod, e1cl, e1vr, e1ops, e1lp, e1gr, e1pp, e1dv,
    e1lw, e1il, e1pm, e1pmo, e1pl, tail1, e1av⟩ := hEO1
  have hc2_load : c2.is_loading = true := by rw [e1il]; exact hload
  have hsl_load : (setLoops loops2 c2).is_loading = true := hc2_load
  have hgg : (setLoops loops2 c2).state.granulo_generations =
      c.state.granulo_generations := e1gr
  obtain ⟨gw, grans2, c3, hrg⟩ :
      ∃ x y z, replayGranulos envs (setLoops loops2 c2).state.granulo_generations 0
        (setLoops loops2 c2) = (x, y, z) := ⟨_, _, _, rfl⟩
  have hge := replayGranulos_extends envs
    (setLoops loops2 c2).state.granulo_generations 0 (setLoops loops2 c2) hsl_load
  rw [hrg] at hge
  have hEO2 : ExtendsOnly (setLoops loops2 c2) c3 := hge.1
  obtain ⟨e2n, e2d, e2u, e2mat, e2mod, e2cl, e2vr, e2ops, e2lp, e2gr, e2pp, e2dv,
    e2lw, e2il, e2pm, e2pmo, e2pl, tail2, e2av⟩ := hEO2
  have hc3lw : c3.state.load_warnings = [] := by
    have h2 : c3.state.load_warnings = c2.state.load_warnings := e2lw
    have h1 : c2.state.load_warnings = c.state.load_warnings := e1lw
    rw [h2, h1, hwarn0]
  have hfin : (if (lw ++ gw).isEmpty then c3.state.load_warnings else lw ++ gw) =
      lw ++ gw := by
    by_cases hempty : (lw ++ gw).isEmpty = true
    · rw [if_pos hempty, hc3lw, List.isEmpty_iff.mp hempty]
    · rw [if_neg hempty]
  refine ⟨lw, loops2, c2, gw, grans2, c3, hrl, ?_, ?_⟩
  · rw [← hgg]
    exact hrg
  · simp only [rebuild, hcm, hrl, hrg]
    rcases hcv : checkVisibilityRules
        (rebuildLaws (attachWarnings (lw ++ gw)
          (setGranulos grans2 c3))).state.visibility_rules
        (rebuildLaws (attachWarnings (lw ++ gw)
          (setGranulos grans2 c3))).pylmgc_laws with e | u2
    · exact hfin
    · rw [foldl_apply_dof]
      exact hfin

/-- Combined behavior of `_rebuild_pylmgc_objects` when invoked while
`_is_loading` is set (its only call site, `load_project`): config counts
are preserved, every non-generated entity list is restored verbatim,
avatars only grow, the rebuild succeeds whenever the manual-avatar and
visibility passes can succeed (generator failures never abort it), a
Manual avatar with a dangling material/model reference aborts it, and the
attached warnings all carry the `"Boucle N: "`/`"Granulo N: "` shape. -/
lemma rebuild_spec (t : Trig) (envs : Nat → GranuloEnv) (c : Controller)
    (hload : c.is_loading = true) :
    ((rebuild t envs c).2.state.loops.length = c.state.loops.length)
    ∧ ((rebuild t envs c).2.state.granulo_generations.length =
        c.state.granulo_generations.length)
    ∧ ((rebuild t envs c).2.state.materials = c.state.materials)
    ∧ ((rebuild t envs c).2.state.models = c.state.models)
    ∧ ((rebuild t envs c).2.state.contact_laws = c.state.contact_laws)
    ∧ ((rebuild t envs c).2.state.visibility_rules = c.state.visibility_rules)
    ∧ ((rebuild t envs c).2.state.operations = c.state.operations)
    ∧ (∃ tail, (rebuild t envs c).2.state.avatars = c.state.avatars ++ tail)
    ∧ ((∀ a ∈ c.state.avatars, a.origin = AvatarOrigin.MANUAL →
          a.material_name ∈ c.state.materials.map (fun m => m.name) ∧
          a.model_name ∈ c.state.models.map (fun m => m.name)) →
       (∀ r ∈ c.state.visibility_rules,
          r.behavior_name ∈ c.state.contact_laws.map (fun l => l.name)) →
       (rebuild t envs c).1 = .ok ())
    ∧ ((∃ a ∈ c.state.avatars, a.origin = AvatarOrigin.MANUAL ∧
          (a.material_name ∉ c.state.materials.map (fun m => m.name) ∨
           a.model_name ∉ c.state.models.map (fun m => m.name))) →
       ∃ e, (rebuild t envs c).1 = .error e)
    ∧ (c.state.load_warnings = [] →
       ∀ w ∈ (rebuild t envs c).2.state.load_warnings,
         (∃ j msg, j < c.state.loops.length ∧
            w = "Boucle " ++ toString (j + 1) ++ ": " ++ msg) ∨
         (∃ j msg, j < c.state.granulo_generations.length ∧
            w = "Granulo " ++ toString (j + 1) ++ ": " ++ msg)) := by
  have hbase_load : (rebuildMatMod (resetMirrors c)).is_loading = true := hload
  have hmanual_iff :
      checkManualAvatars
          ((rebuildMatMod (resetMirrors c)).state.avatars.filter
            (fun a => a.origin = AvatarOrigin.MANUAL))
          (rebuildMatMod (resetMirrors c)).pylmgc_materials
          (rebuildMatMod (resetMirrors c)).pylmgc_models = .ok () ↔
        ∀ a ∈ c.state.avatars, a.origin = AvatarOrigin.MANUAL →
          a.material_name ∈ c.state.materials.map (fun m => m.name) ∧
          a.model_name ∈ c.state.models.map (fun m => m.name) := by
    rw [checkManualAvatars_ok_iff]
    have hmm : ∀ k, k ∈ (rebuildMatMod (resetMirrors c)).pylmgc_materials ↔
        k ∈ c.state.materials.map (fun m => m.name) := by
      intro k
      have := @mem_insertKeys k (c.state.materials.map (fun m => m.name)) []
      simpa using this
    have hmo : ∀ k, k ∈ (rebuildMatMod (resetMirrors c)).pylmgc_models ↔
        k ∈ c.state.models.map (fun m => m.name) := by
      intro k
      have := @mem_insertKeys k (c.state.models.map (fun m => m.name)) []
      simpa using this
    have hflt : ∀ a : Avatar,
        a ∈ (rebuildMatMod (resetMirrors c)).state.avatars.filter
          (fun a => a.origin = AvatarOrigin.MANUAL) ↔
        (a ∈ c.state.avatars ∧ a.origin = AvatarOrigin.MANUAL) := by
      intro a
      have hb : (rebuildMatMod (resetMirrors c)).state.avatars = c.state.avatars := rfl
      rw [hb, List.mem_filter]
      simp
    constructor
    · intro h a ha ho
      have := h a ((hflt a).mpr ⟨ha, ho⟩)
      exact ⟨(hmm _).mp this.1, (hmo _).mp this.2⟩
    · intro h a ha
      obtain ⟨ha1, ha2⟩ := (hflt a).mp ha
      have := h a ha1 ha2
      exact ⟨(hmm _).mpr this.1, (hmo _).mpr this.2⟩
  simp only [rebuild]
  rcases hcm : checkManualAvatars
      ((rebuildMatMod (resetMirrors c)).state.avatars.filter
        (fun a => a.origin = AvatarOrigin.MANUAL))
      (rebuildMatMod (resetMirrors c)).pylmgc_materials
      (rebuildMatMod (resetMirrors c)).pylmgc_models with e | u
  · refine ⟨rfl, rfl, rfl, rfl, rfl, rfl, rfl, ⟨[], (List.append_nil c.state.avatars).symm⟩, ?_, fun _ => ⟨e, rfl⟩, ?_⟩
    · intro h1 _
      exact absurd hcm (by rw [hmanual_iff.mpr h1]; simp)
    · intro hw0 w hw
      have hw' : w ∈ c.state.load_warnings := hw
      rw [hw0] at hw'
      simp at hw'
  · rcases hrl : replayLoops t (rebuildMatMod (resetMirrors c)).state.loops 0
        (rebuildMatMod (resetMirrors c)) with ⟨lw, loops', c2⟩
    have hle := replayLoops_extends t (rebuildMatMod (resetMirrors c)).state.loops 0
      (rebuildMatMod (resetMirrors c)) hbase_load
    rw [hrl] at hle
    have hEO1 : ExtendsOnly (rebuildMatMod (resetMirrors c)) c2 := hle.1
    have hlen1 : loops'.length = c.state.loops.length := hle.2
    obtain ⟨e1n, e1d, e1u, e1mat, e1mod, e1cl, e1vr, e1ops, e1lp, e1gr, e1pp, e1dv,
      e1lw, e1il, e1pm, e1pmo, e1pl, tail1, e1av⟩ := hEO1
    have hc2_load : c2.is_loading = true := by rw [e1il]; exact hload
    have hsl_load : (setLoops loops' c2).is_loading = true := hc2_load
    rcases hrg : replayGranulos envs (setLoops loops' c2).state.granulo_generations 0
        (setLoops loops' c2) with ⟨gw, grans', c3⟩
    have hge := replayGranulos_extends envs
      (setLoops loops' c2).state.granulo_generations 0 (setLoops loops' c2) hsl_load
    rw [hrg] at hge
    have hEO2 : ExtendsOnly (setLoops loops' c2) c3 := hge.1
    have hlen2 : grans'.length = c2.state.granulo_generations.length := hge.2
    obtain ⟨e2n, e2d, e2u, e2mat, e2mod, e2cl, e2vr, e2ops, e2lp, e2gr, e2pp, e2dv,
      e2lw, e2il, e2pm, e2pmo, e2pl, tail2, e2av⟩ := hEO2
    -- clean restatements of the chained facts
    have hmat3 : c3.state.materials = c.state.materials := by
      have h1 : c2.state.materials = c.state.materials := e1mat
      have h2 : c3.state.materials = c2.state.materials := e2mat
      rw [h2, h1]
    have hmod3 : c3.state.models = c.state.models := by
      have h1 : c2.state.models = c.state.models := e1mod
      have h2 : c3.state.models = c2.state.models := e2mod
      rw [h2, h1]
    have hcl3 : c3.state.contact_laws = c.state.contact_laws := by
      have h1 : c2.state.contact_laws = c.state.contact_laws := e1cl
      have h2 : c3.state.contact_laws = c2.state.contact_laws := e2cl
      rw [h2, h1]
    have hvr3 : c3.state.visibility_rules = c.state.visibility_rules := by
      have h1 : c2.state.visibility_rules = c.state.visibility_rules := e1vr
      have h2 : c3.state.visibility_rules = c2.state.visibility_rules := e2vr
      rw [h2, h1]
    have hops3 : c3.state.operations = c.state.operations := by
      have h1 : c2.state.operations = c.state.operations := e1ops
      have h2 : c3.state.operations = c2.state.operations := e2ops
      rw [h2, h1]
    have hlp3 : c3.state.loops = loops' := e2lp
    have hgr2 : c2.state.granulo_generations = c.state.granulo_generations := e1gr
    have hlw3 : c3.state.load_warnings = c.state.load_warnings := by
      have h1 : c2.state.load_warnings = c.state.load_warnings := e1lw
      have h2 : c3.state.load_warnings = c2.state.load_warnings := e2lw
      rw [h2, h1]
    have hav3 : c3.state.avatars = c.state.avatars ++ (tail1 ++ tail2) := by
      have h1 : c2.state.avatars = c.state.avatars ++ tail1 := e1av
      have h2 : c3.state.avatars = c2.state.avatars ++ tail2 := e2av
      rw [h2, h1, List.append_assoc]
    have hvis_iff :
        checkVisibilityRules
            (rebuildLaws (attachWarnings (lw ++ gw)
              (setGranulos grans' c3))).state.visibility_rules
            (rebuildLaws (attachWarnings (lw ++ gw)
              (setGranulos grans' c3))).pylmgc_laws = .ok () ↔
          ∀ r ∈ c.state.visibility_rules,
            r.behavior_name ∈ c.state.contact_laws.map (fun l => l.name) := by
      rw [checkVisibilityRules_ok_iff]
      have hrules : (rebuildLaws (attachWarnings (lw ++ gw)
          (setGranulos grans' c3))).state.visibility_rules =
            c.state.visibility_rules := hvr3
      have hlaws : ∀ k, k ∈ (rebuildLaws (attachWarnings (lw ++ gw)
          (setGranulos grans' c3))).pylmgc_laws ↔
            k ∈ c.state.contact_laws.map (fun l => l.name) := by
        intro k
        show k ∈ insertKeys ((attachWarnings (lw ++ gw)
          (setGranulos grans' c3)).state.contact_laws.map (fun l => l.name)) [] ↔ _
        have hc : (attachWarnings (lw ++ gw)
            (setGranulos grans' c3)).state.contact_laws = c.state.contact_laws := hcl3
        rw [hc, mem_insertKeys]
        simp
      rw [hrules]
      constructor
      · intro h r hr
        exact (hlaws _).mp (h r hr)
      · intro h r hr
        exact (hlaws _).mpr (h r hr)
    rcases hcv : checkVisibilityRules
        (rebuildLaws (attachWarnings (lw ++ gw)
          (setGranulos grans' c3))).state.visibility_rules
        (rebuildLaws (attachWarnings (lw ++ gw)
          (setGranulos grans' c3))).pylmgc_laws with e | u2
    · -- visibility check failed: the state facts still hold
      refine ⟨?_, ?_, hmat3, hmod3, hcl3, hvr3, hops3, ⟨tail1 ++ tail2, hav3⟩,
        ?_, ?_, ?_⟩
      · show c3.state.loops.length = c.state.loops.length
        rw [hlp3]
        exact hlen1
      · show grans'.length = c.state.granulo_generations.length
        rw [hlen2, hgr2]
      · intro _ h2
        exact absurd hcv (by rw [hvis_iff.mpr h2]; simp)
      · intro hmiss
        exact absurd (hmanual_iff.mp hcm) (by
          obtain ⟨a, ha, ho, hm⟩ := hmiss
          intro hall
          rcases hm with hm | hm
          · exact hm ((hall a ha ho).1)
          · exact hm ((hall a ha ho).2))
      · intro hw0 w hw
        have hw' : w ∈ (if (lw ++ gw).isEmpty then c3.state.load_warnings
            else lw ++ gw) := hw
        by_cases hempty : (lw ++ gw).isEmpty
        · rw [if_pos hempty, hlw3, hw0] at hw'
          simp at hw'
        · rw [if_neg hempty] at hw'
          rcases List.mem_append.mp hw' with hwl | hwg
          · left
            have hwrn := replayLoops_warnings t
              (rebuildMatMod (resetMirrors c)).state.loops 0
              (rebuildMatMod (resetMirrors c))
            rw [hrl] at hwrn
            obtain ⟨j, msg, _, hjlt, rfl⟩ := hwrn w hwl
            refine ⟨j, msg, ?_, rfl⟩
            have : j < 0 + (c.state.loops.length) := hjlt
            omega
          · right
            have hwrn := replayGranulos_warnings envs
              (setLoops loops' c2).state.granulo_generations 0 (setLoops loops' c2)
            rw [hrg] at hwrn
            obtain ⟨j, msg, _, hjlt, rfl⟩ := hwrn w hwg
            refine ⟨j, msg, ?_, rfl⟩
            have hj2 : j < 0 + c2.state.granulo_generations.length := hjlt
            rw [hgr2] at hj2
            omega
    · -- success path: the DOF replay leaves the controller unchanged
      rw [foldl_apply_dof]
      refine ⟨?_, ?_, hmat3, hmod3, hcl3, hvr3, hops3, ⟨tail1 ++ tail2, hav3⟩,
        fun _ _ => rfl, ?_, ?_⟩
      · show c3.state.loops.length = c.state.loops.length
        rw [hlp3]
        exact hlen1
      · show grans'.length = c.state.granulo_generations.length
        rw [hlen2, hgr2]
      · intro hmiss
        exact absurd (hmanual_iff.mp hcm) (by
          obtain ⟨a, ha, ho, hm⟩ := hmiss
          intro hall
          rcases hm with hm | hm
          · exact hm ((hall a ha ho).1)
          · exact hm ((hall a ha ho).2))
      · intro hw0 w hw
        have hw' : w ∈ (if (lw ++ gw).isEmpty then c3.state.load_warnings
            else lw ++ gw) := hw
        by_cases hempty : (lw ++ gw).isEmpty
        · rw [if_pos hempty, hlw3, hw0] at hw'
          simp at hw'
        · rw [if_neg hempty] at hw'
          rcases List.mem_append.mp hw' with hwl | hwg
          · left
            have hwrn := replayLoops_warnings t
              (rebuildMatMod (resetMirrors c)).state.loops 0
              (rebuildMatMod (resetMirrors c))
            rw [hrl] at hwrn
            obtain ⟨j, msg, _, hjlt, rfl⟩ := hwrn w hwl
            refine ⟨j, msg, ?_, rfl⟩
            have : j < 0 + (c.state.loops.length) := hjlt
            omega
          · right
            have hwrn := replayGranulos_warnings envs
              (setLoops loops' c2).state.granulo_generations 0 (setLoops loops' c2)
            rw [hrg] at hwrn
            obtain ⟨j, msg, _, hjlt, rfl⟩ := hwrn w hwg
            refine ⟨j, msg, ?_, rfl⟩
            have hj2 : j < 0 + c2.state.granulo_generations.length := hjlt
            rw [hgr2] at hj2
            omega

/-- Opaque trig collaborator instance for concrete runs. -/
def trigW : Trig := ⟨0, fun _ => 0, fun _ => 0⟩

/-- External granulo collaborator instance for concrete runs. -/
def envsW : Nat → GranuloEnv := fun _ => ⟨[], none⟩

/-- Fresh controller for concrete runs. -/
def ctrlEmptyW : Controller := { state := { name := "N" } }

/-- C10: while `_is_loading` is set, `generate_loop`/`generate_granulo`
create the avatars but do not append the config to the store's
loop/granulo list again, so after a load the number of stored configs
equals the number in the snapshot. -/
theorem replay_no_duplicate_configs (t : Trig) :
    (∀ (c : Controller) (loop : Loop), c.is_loading = true →
        (ProjectController.generate_loop t loop c).2.state.loops = c.state.loops)
    ∧ (∀ (c : Controller) (env : GranuloEnv) (config : GranuloGeneration),
        c.is_loading = true →
        (ProjectController.generate_granulo env config c).2.state.granulo_generations =
          c.state.granulo_generations)
    ∧ (∀ (envs : Nat → GranuloEnv) (c : Controller) (snapshot : ProjectState),
        (load_project t envs c snapshot).2.state.loops.length = snapshot.loops.length
        ∧ (load_project t envs c snapshot).2.state.granulo_generations.length =
            snapshot.granulo_generations.length) := by
  refine ⟨?_, ?_, ?_⟩
  · intro c loop hl
    exact (generate_loop_extends t loop c hl).2.2.2.2.2.2.2.2.1
  · intro c env config hl
    exact (generate_granulo_extends env config c hl).2.2.2.2.2.2.2.2.2.1
  · intro envs c snapshot
    have hr := rebuild_spec t envs { c with is_loading := true, state := snapshot } rfl
    exact ⟨hr.1, hr.2.1⟩

/-- Concrete instance: a loading controller with one avatar. -/
def ctrlW10 : Controller :=
  { state := { name := "P", avatars := [avatarManualW] }
    is_loading := true
    pylmgc_materials := ["M1"]
    pylmgc_models := ["mod1"] }

/-- Concrete instance. -/
def loopW10 : Loop := { loop_type := "Ligne", model_avatar_index := 0, count := 1, step := 1 }

/-- Witness for `replay_no_duplicate_configs`: generating a loop while
loading leaves the stored loop list unchanged. -/
theorem replay_no_duplicate_configs_witness :
    (ProjectController.generate_loop trigW loopW10 ctrlW10).2.state.loops =
      ctrlW10.state.loops :=
  (replay_no_duplicate_configs trigW).1 ctrlW10 loopW10 rfl

/-- C2: during load, any exception raised by a generator replay is caught
and converted into a one-line warning naming that generator (1-based, the
source strings are French: `"Boucle N: <message>"` / `"Granulo N: <message>"`
where the spec writes `"Loop N: <message>"`), replay continues with the
remaining generators, every non-generated entity of the snapshot is
restored, the warnings attached to the restored store are exactly the ones
collected by the two replay passes, and the load still reports success. -/
theorem replay_downgrades_generator_errors (t : Trig) (envs : Nat → GranuloEnv)
    (c : Controller) (snapshot : ProjectState)
    (hmanual : ∀ a ∈ snapshot.avatars, a.origin = AvatarOrigin.MANUAL →
        a.material_name ∈ snapshot.materials.map (fun m => m.name) ∧
        a.model_name ∈ snapshot.models.map (fun m => m.name))
    (hrules : ∀ r ∈ snapshot.visibility_rules,
        r.behavior_name ∈ snapshot.contact_laws.map (fun l => l.name))
    (hwarn0 : snapshot.load_warnings = []) :
    -- a failing template-index pre-check on the i-th loop config is caught,
    -- becomes its warning, keeps the config and continues with the rest
    (∀ (loop : Loop) (ls : List Loop) (i : Nat) (cc : Controller),
        cc.state.avatars.length ≤ loop.model_avatar_index →
        replayLoops t (loop :: ls) i cc =
          (("Boucle " ++ toString (i + 1) ++ ": " ++
              ("Index modèle " ++ toString loop.model_avatar_index ++ " invalide")) ::
            (replayLoops t ls (i + 1) cc).1,
           loop :: (replayLoops t ls (i + 1) cc).2.1,
           (replayLoops t ls (i + 1) cc).2.2))
    -- an exception of generate_loop on the i-th loop config is caught,
    -- becomes the warning carrying its message, and replay continues
    ∧ (∀ (loop : Loop) (ls : List Loop) (i : Nat) (cc c1 : Controller) (e : Err),
        ¬ cc.state.avatars.length ≤ loop.model_avatar_index →
        ProjectController.generate_loop t loop cc = (.error e, c1) →
        replayLoops t (loop :: ls) i cc =
          (("Boucle " ++ toString (i + 1) ++ ": " ++ e.msg) ::
            (replayLoops t ls (i + 1) c1).1,
           loop :: (replayLoops t ls (i + 1) c1).2.1,
           (replayLoops t ls (i + 1) c1).2.2))
    -- a successful replay step adds no warning and continues
    ∧ (∀ (loop : Loop) (ls : List Loop) (i : Nat) (cc c1 : Controller)
          (idxs : List Nat) (loop2 : Loop),
        ¬ cc.state.avatars.length ≤ loop.model_avatar_index →
        ProjectController.generate_loop t loop cc = (.ok (idxs, loop2), c1) →
        replayLoops t (loop :: ls) i cc =
          ((replayLoops t ls (i + 1) c1).1,
           loop2 :: (replayLoops t ls (i + 1) c1).2.1,
           (replayLoops t ls (i + 1) c1).2.2))
    -- an exception of generate_granulo is likewise caught and converted
    ∧ (∀ (g : GranuloGeneration) (gs : List GranuloGeneration) (i : Nat)
          (cc c1 : Controller) (e : Err),
        ProjectController.generate_granulo (envs i) g cc = (.error e, c1) →
        replayGranulos envs (g :: gs) i cc =
          (("Granulo " ++ toString (i + 1) ++ ": " ++ e.msg) ::
            (replayGranulos envs gs (i + 1) c1).1,
           g :: (replayGranulos envs gs (i + 1) c1).2.1,
           (replayGranulos envs gs (i + 1) c1).2.2))
    ∧ (load_project t envs c snapshot).1 = .ok ()
    ∧ (load_project t envs c snapshot).2.state.materials = snapshot.materials
    ∧ (load_project t envs c snapshot).2.state.models = snapshot.models
    ∧ (load_project t envs c snapshot).2.state.contact_laws = snapshot.contact_laws
    ∧ (load_project t envs c snapshot).2.state.visibility_rules =
        snapshot.visibility_rules
    ∧ (load_project t envs c snapshot).2.state.operations = snapshot.operations
    ∧ (∀ w ∈ (load_project t envs c snapshot).2.state.load_warnings,
        (∃ j msg, j < snapshot.loops.length ∧
          w = "Boucle " ++ toString (j + 1) ++ ": " ++ msg) ∨
        (∃ j msg, j < snapshot.granulo_generations.length ∧
          w = "Granulo " ++ toString (j + 1) ++ ": " ++ msg))
    -- the warnings attached to the loaded store are exactly the ones the
    -- loop replay pass then the granulo replay pass collected
    ∧ (∃ loopWarns loops2 ctrl2 granWarns grans2 ctrl3,
        replayLoops t snapshot.loops 0
            (rebuildMatMod (resetMirrors
              { c with is_loading := true, state := snapshot })) =
          (loopWarns, loops2, ctrl2)
        ∧ replayGranulos envs snapshot.granulo_generations 0
            (setLoops loops2 ctrl2) = (granWarns, grans2, ctrl3)
        ∧ (load_project t envs c snapshot).2.state.load_warnings =
            loopWarns ++ granWarns)
    -- composed: when the first loop config has a dangling template index,
    -- exactly its warning heads the attached list
    ∧ (∀ loop rest, snapshot.loops = loop :: rest →
        snapshot.avatars.length ≤ loop.model_avatar_index →
        ∃ ws, (load_project t envs c snapshot).2.state.load_warnings =
          ("Boucle 1: " ++
            ("Index modèle " ++ toString loop.model_avatar_index ++ " invalide")) ::
            ws) := by
  have hr := rebuild_spec t envs { c with is_loading := true, state := snapshot } rfl
  obtain ⟨lw, loops2, ctrl2, gw, grans2, ctrl3, h1, h2, h3⟩ :=
    rebuild_warnings_exact t envs { c with is_loading := true, state := snapshot }
      rfl hmanual hwarn0
  have h3L : (load_project t envs c snapshot).2.state.load_warnings = lw ++ gw := h3
  refine ⟨fun loop ls i cc h => replayLoops_cons_precheck t loop ls i cc h,
    fun loop ls i cc c1 e hidx hgen =>
      replayLoops_cons_error t loop ls i cc c1 e hidx hgen,
    fun loop ls i cc c1 idxs loop2 hidx hgen =>
      replayLoops_cons_ok t loop ls i cc c1 idxs loop2 hidx hgen,
    fun g gs i cc c1 e hgen => replayGranulos_cons_error envs g gs i cc c1 e hgen,
    hr.2.2.2.2.2.2.2.2.1 hmanual hrules,
    hr.2.2.1, hr.2.2.2.1, hr.2.2.2.2.1, hr.2.2.2.2.2.1, hr.2.2.2.2.2.2.1,
    hr.2.2.2.2.2.2.2.2.2.2 hwarn0,
    ⟨lw, loops2, ctrl2, gw, grans2, ctrl3, h1, h2, h3L⟩, ?_⟩
  intro loop rest hsnap hidx
  have hidx2 : (rebuildMatMod (resetMirrors
      { c with is_loading := true, state := snapshot })).state.avatars.length ≤
      loop.model_avatar_index := hidx
  have h1a : replayLoops t (loop :: rest) 0
      (rebuildMatMod (resetMirrors { c with is_loading := true, state := snapshot })) =
      (lw, loops2, ctrl2) := by
    rw [← hsnap]
    exact h1
  have hstep := replayLoops_cons_precheck t loop rest 0
    (rebuildMatMod (resetMirrors { c with is_loading := true, state := snapshot }))
    hidx2
  have hlw : lw = ("Boucle " ++ toString (0 + 1) ++ ": " ++
      ("Index modèle " ++ toString loop.model_avatar_index ++ " invalide")) ::
      (replayLoops t rest (0 + 1)
        (rebuildMatMod (resetMirrors
          { c with is_loading := true, state := snapshot }))).1 :=
    congrArg (fun p => p.1) (h1a.symm.trans hstep)
  refine ⟨(replayLoops t rest (0 + 1)
      (rebuildMatMod (resetMirrors
        { c with is_loading := true, state := snapshot }))).1 ++ gw, ?_⟩
  rw [h3L, hlw, List.cons_append]
  rfl

/-- Concrete instance: a rigid disk with no radius (rejected by the
avatar validator). -/
def avatarBadW : Avatar :=
  { avatar_type := .RIGID_DISK, center := [0, 0]
    material_name := "M1", model_name := "mod1" }

/-- Concrete instance. -/
def materialW : Material := ⟨"M1", .RIGID, 2500, []⟩

/-- Concrete instance. -/
def modelW : Model := ⟨"mod1", "MECAx", "Rxx2D", 2, []⟩

/-- Concrete instance: a snapshot whose first loop config references a
missing template avatar (index 5 with a single avatar) and whose second
loop config is valid. -/
def stateW2 : ProjectState :=
  { name := "P"
    materials := [materialW]
    models := [modelW]
    avatars := [avatarManualW]
    loops := [{ loop_type := "Cercle", model_avatar_index := 5, count := 1 },
              { loop_type := "Ligne", model_avatar_index := 0, count := 1, step := 1 }] }

/-- Witness for `replay_downgrades_generator_errors`: loading `stateW2`,
the broken first loop is downgraded to exactly its one-line warning, the
valid second loop is still replayed (its avatar is created next to the
Manual one), and the load reports success. -/
theorem replay_downgrades_generator_errors_witness :
    (load_project trigW envsW ctrlEmptyW stateW2).1 = .ok ()
    ∧ (load_project trigW envsW ctrlEmptyW stateW2).2.state.load_warnings =
        ["Boucle 1: Index modèle 5 invalide"]
    ∧ (load_project trigW envsW ctrlEmptyW stateW2).2.state.avatars.length = 2 := by
  have h := replay_downgrades_generator_errors trigW envsW ctrlEmptyW stateW2
    (by simp [stateW2, avatarManualW, materialW, modelW]) (by simp [stateW2]) rfl
  refine ⟨h.2.2.2.2.1, ?_, ?_⟩
  · obtain ⟨lw, loops2, ctrl2, gw, grans2, ctrl3, h1, h2, h3⟩ :=
      h.2.2.2.2.2.2.2.2.2.2.2.1
    have hlw : lw = ["Boucle 1: Index modèle 5 invalide"] :=
      (congrArg (fun p => p.1) h1).symm.trans rfl
    have hgw : gw = [] :=
      (congrArg (fun p => p.1) h2).symm.trans rfl
    rw [h3, hlw, hgw]
    rfl
  · rfl

/-- Concrete instance: controller whose backend mirrors hold the
references of `avatarBadW`. -/
def ctrlW4 : Controller :=
  { state := { name := "P" }
    pylmgc_materials := ["M1"]
    pylmgc_models := ["mod1"] }

/-- Concrete instance: snapshot holding `avatarBadW` as a Manual avatar
with its material and model present. -/
def stateW4 : ProjectState :=
  { name := "P", materials := [materialW], models := [modelW], avatars := [avatarBadW] }

/-- C4 counterexample: the no-radius disk is rejected by
`AvatarValidator`/`add_avatar`, but loading a snapshot that contains it
succeeds — the load does not re-run the `add_avatar` validation path. -/
theorem load_skips_avatar_validation :
    (AvatarValidator.validate avatarBadW 2).1 = false
    ∧ (ProjectController.add_avatar avatarBadW ctrlW4).1 =
        .error (.validation "Rayon positif requis pour rigidDisk")
    ∧ (load_project trigW envsW ctrlEmptyW stateW4).1 = .ok () := by
  exact ⟨rfl, rfl, rfl⟩

/-- C4 amended: on load, Manual avatars are restored in their original
order (the restored avatar list begins with the snapshot's); the rebuild
checks only that each referenced material and model exists — a missing
reference makes the whole load fail with an error — and does not re-run
the avatar-level validation of `add_avatar`. -/
theorem load_manual_avatar_restore (t : Trig) (envs : Nat → GranuloEnv)
    (c : Controller) (snapshot : ProjectState) :
    ((∃ a ∈ snapshot.avatars, a.origin = AvatarOrigin.MANUAL ∧
        (a.material_name ∉ snapshot.materials.map (fun m => m.name) ∨
         a.model_name ∉ snapshot.models.map (fun m => m.name))) →
      ∃ e, (load_project t envs c snapshot).1 = .error e)
    ∧ (∃ tail, (load_project t envs c snapshot).2.state.avatars =
        snapshot.avatars ++ tail) := by
  have hr := rebuild_spec t envs { c with is_loading := true, state := snapshot } rfl
  exact ⟨hr.2.2.2.2.2.2.2.2.2.1, hr.2.2.2.2.2.2.2.1⟩

/-- Concrete instance: `avatarBadW` with its material absent from the
snapshot. -/
def stateW4m : ProjectState :=
  { name := "P", models := [modelW], avatars := [avatarBadW] }

/-- Witness for `load_manual_avatar_restore`: a Manual avatar whose
material is missing makes the load fail. -/
theorem load_manual_avatar_restore_witness :
    ∃ e, (load_project trigW envsW ctrlEmptyW stateW4m).1 = .error e :=
  (load_manual_avatar_restore trigW envsW ctrlEmptyW stateW4m).1
    ⟨avatarBadW, by simp [stateW4m], rfl, Or.inl (by simp [stateW4m])⟩

end LMGC
